import Mathlib

/-!
# Push-pull converter: PWM parameter engine

A shallow embedding of `src/main.cpp`, an Arduino sketch for the ATmega328P
(AVR, 16 MHz) that drives Timer 1 to produce two complementary PWM outputs.

Machine types of the target, as they are modelled here:

* `int` is a 16-bit signed integer, modelled as `Int`; every `int` operation of
  the sketch stays inside the 16-bit range on the inputs considered, so no
  wrap-around is inserted for them;
* `long` is 32-bit signed, modelled as `Int`;
* `unsigned long` is 32-bit unsigned, modelled as `Nat` reduced `% 2^32`;
* the timer registers `ICR1`, `OCR1A`, `OCR1B`, `TCNT1` are 16-bit
  (`Nat` reduced `% 2^16`), `TCCR1A` and `TCCR1B` are 8-bit (`% 2^8`);
* C's `/` on signed operands truncates toward zero (`Int.tdiv`); division by
  zero has no defined result, so `calculatePeriod` returns `none` there;
* `TCCR1B &= ~TCCR1B_CS20` is evaluated in `int`: the mask `0x01` is complemented
  as a 16-bit pattern and the result is stored in the 8-bit register;
* `OCR1A - 1` is evaluated in `unsigned int` (16 bits), so it wraps to 65535
  when `OCR1A` is 0.

The serial port is modelled by the text that has been sent so far.

The bit numbers `COM1A1`, `COM1A0`, `COM1B1`, `COM1B0` come from the device header and are
a parameter of `setupTimer` and `setup`; `atmega328p` holds the values of the target. The
register writes of `setFrequencyDutyCycle` are listed in program order by
`setFrequencyDutyCycle_writes`, and runs of the engine and of the command loop are
`runEngine` and `loop`.
-/

namespace PushPull

/-! ## Constants of the sketch -/

/-- Source: `#define TIMER1_PRESCALE 1`, the clock prescaler value. -/
def TIMER1_PRESCALE : Int := 1

/-- Source: `#define TCCR1B_CS20 0x01`, the mask used to stop and start the clock. -/
def TCCR1B_CS20 : Nat := 0x01

/-- Source: `const int default_frequency_kHz = 10`. -/
def default_frequency_kHz : Int := 10

/-- Source: `const int default_duty_cycle = 20`. -/
def default_duty_cycle : Int := 20

/-- Modelled from the spec: the Arduino core value `clockCyclesPerMicrosecond()`,
that is `F_CPU / 1000000L`, is not part of the sketch; the sketch's comments and the
spec fix a 16 MHz clock (one tick is 62.5 ns), hence 16 cycles per microsecond. -/
def clockCyclesPerMicrosecond : Int := 16

/-- Modelled from the spec: the Arduino core's `microsecondsToClockCycles(a)`, which
is `(a) * clockCyclesPerMicrosecond()` computed in `long`; the spec calls it
`ticks_for`. -/
def microsecondsToClockCycles (a : Int) : Int := a * clockCyclesPerMicrosecond

/-! ## Machine integer conversions -/

/-- Conversion of a signed value to `unsigned long` (32 bits, modulo `2^32`). -/
def toULong (x : Int) : Nat := (x % 4294967296).toNat

/-- Reduction of an unsigned result to `unsigned long`. -/
def wrapULong (n : Nat) : Nat := n % 4294967296

/-- Value stored by a write to a 16-bit register. -/
def toReg16 (n : Nat) : Nat := n % 65536

/-- Value stored by a write to an 8-bit register. -/
def toReg8 (n : Nat) : Nat := n % 256

/-- C's `~m` on the 16-bit `int` that a small mask `m` is promoted to, as a bit pattern. -/
def complement16 (m : Nat) : Nat := 65535 - m % 65536

/-! ## State: the sketch's globals, the Timer 1 registers, the serial output -/

/-- The five globals of the sketch, the Timer 1 registers it writes, and the text written
to the serial port. -/
@[ext]
structure State where
  g_frequency_kHz : Int
  g_period_us : Int
  g_duty_cycle : Int
  g_period_ticks : Nat
  g_on_ticks : Nat
  TCCR1A : Nat
  TCCR1B : Nat
  ICR1 : Nat
  OCR1A : Nat
  OCR1B : Nat
  TCNT1 : Nat
  serial : String
deriving DecidableEq, Repr

/-! ## The parameter engine -/

/-- Source: `int calculatePeriod(int frequency_kHz) { return (1000 / frequency_kHz); }`.
Division by zero has no result. -/
def calculatePeriod (frequency_kHz : Int) : Option Int :=
  if frequency_kHz = 0 then none else some (Int.tdiv 1000 frequency_kHz)

/-- Source: `void setFrequencyDutyCycle(int frequency_kHz, int duty_cycle)`, statement by
statement. -/
def setFrequencyDutyCycle (s : State) (frequency_kHz duty_cycle : Int) : Option State := do
  -- g_frequency_kHz = frequency_kHz; g_duty_cycle = duty_cycle;
  let s := { s with g_frequency_kHz := frequency_kHz }
  let s := { s with g_duty_cycle := duty_cycle }
  -- g_period_us = calculatePeriod(frequency_kHz);
  let period ← calculatePeriod frequency_kHz
  let s := { s with g_period_us := period }
  -- g_period_ticks = microsecondsToClockCycles(g_period_us / 2) / TIMER1_PRESCALE;
  let cycles := microsecondsToClockCycles (Int.tdiv s.g_period_us 2)
  let s := { s with g_period_ticks := toULong (Int.tdiv cycles TIMER1_PRESCALE) }
  -- g_on_ticks = g_period_ticks * duty_cycle / 100;
  let s := { s with g_on_ticks := wrapULong (s.g_period_ticks * toULong duty_cycle) / 100 }
  -- TCCR1B &= ~TCCR1B_CS20;
  let s := { s with TCCR1B := toReg8 (s.TCCR1B &&& complement16 TCCR1B_CS20) }
  -- ICR1 = g_period_ticks;
  let s := { s with ICR1 := toReg16 s.g_period_ticks }
  -- OCR1A = g_on_ticks;
  let s := { s with OCR1A := toReg16 s.g_on_ticks }
  -- OCR1B = g_period_ticks - g_on_ticks;
  let s := { s with OCR1B := toReg16 (wrapULong (s.g_period_ticks + 4294967296 - s.g_on_ticks)) }
  -- TCNT1 = OCR1A - 1;
  let s := { s with TCNT1 := toReg16 (s.OCR1A + 65536 - 1) }
  -- TCCR1B |= TCCR1B_CS20;
  let s := { s with TCCR1B := toReg8 (s.TCCR1B ||| TCCR1B_CS20) }
  pure s

/-- Source: `void increaseDutyCycle()`. -/
def increaseDutyCycle (s : State) : Option State :=
  if s.g_duty_cycle < 48 then
    let s := { s with g_duty_cycle := s.g_duty_cycle + 1 }
    setFrequencyDutyCycle s s.g_frequency_kHz s.g_duty_cycle
  else
    some s

/-- Source: `void decreaseDutyCycle()`. -/
def decreaseDutyCycle (s : State) : Option State :=
  if s.g_duty_cycle > 0 then
    let s := { s with g_duty_cycle := s.g_duty_cycle - 1 }
    setFrequencyDutyCycle s s.g_frequency_kHz s.g_duty_cycle
  else
    some s

/-! ## Status reporting -/

/-- `Serial.print` of a piece of text: it is appended to what was sent. -/
def Serial_print (s : State) (text : String) : State :=
  { s with serial := s.serial ++ text }

/-- `Serial.println` of a piece of text: the text and the line terminator `\r\n`. -/
def Serial_println (s : State) (text : String) : State :=
  { s with serial := s.serial ++ text ++ "\r\n" }

/-- Source: `void printDebugInfo()`; numbers are printed in decimal. -/
def printDebugInfo (s : State) : State :=
  let s := Serial_print s "Period: "
  let s := Serial_print s (toString s.g_period_us)
  let s := Serial_print s " us"
  let s := Serial_print s "  Frequency: "
  let s := Serial_print s (toString s.g_frequency_kHz)
  let s := Serial_print s " kHz"
  let s := Serial_print s "  Duty Cycle: "
  let s := Serial_print s (toString s.g_duty_cycle)
  let s := Serial_print s "%"
  let s := Serial_print s "  Period ticks: "
  let s := Serial_print s (toString s.g_period_ticks)
  let s := Serial_print s "  ON ticks: "
  Serial_println s (toString s.g_on_ticks)

/-! ## The command loop -/

/-- Source: the body of the `while(Serial.available())` loop of `loop()`, for the byte
`ch` returned by `Serial.read()`. -/
def loop_step (s : State) (ch : Int) : Option State := do
  let s ←
    if ch = (Char.toNat '0' : Int) then
      setFrequencyDutyCycle s 100 default_duty_cycle
    else if ch ≥ (Char.toNat '1' : Int) ∧ ch ≤ (Char.toNat '9' : Int) then
      setFrequencyDutyCycle s ((ch - (Char.toNat '0' : Int)) * 10) default_duty_cycle
    else if ch = (Char.toNat ',' : Int) then
      decreaseDutyCycle s
    else if ch = (Char.toNat '.' : Int) then
      increaseDutyCycle s
    else if ch = (Char.toNat ' ' : Int) then
      if s.g_duty_cycle ≠ 48 then
        setFrequencyDutyCycle s s.g_frequency_kHz 48
      else
        setFrequencyDutyCycle s s.g_frequency_kHz 10
    else
      some s
  pure (printDebugInfo s)

/-- Source: `void loop()`, run on the bytes waiting in the serial receive buffer. -/
def loop (s : State) : List Int → Option State
  | [] => some s
  | ch :: rest =>
    match loop_step s ch with
    | none => none
    | some s1 => loop s1 rest

/-- A state with every global and register zero and nothing sent, as after reset. -/
def State.zero : State :=
  { g_frequency_kHz := 0, g_period_us := 0, g_duty_cycle := 0, g_period_ticks := 0,
    g_on_ticks := 0, TCCR1A := 0, TCCR1B := 0, ICR1 := 0, OCR1A := 0, OCR1B := 0,
    TCNT1 := 0, serial := "" }


/-! ## Reference definitions of the duty-cycle steps, following the specification -/

/-- The spec's `increase_duty_cycle()`: adjust the duty cycle by +1 and reapply, but only
if the result stays within `[0, 48]`; otherwise nothing changes. -/
def spec_increase_duty_cycle (s : State) : Option State :=
  if 0 ≤ s.g_duty_cycle + 1 ∧ s.g_duty_cycle + 1 ≤ 48 then
    setFrequencyDutyCycle s s.g_frequency_kHz (s.g_duty_cycle + 1)
  else
    some s

/-- The spec's `decrease_duty_cycle()`: adjust the duty cycle by -1 and reapply, but only
if the result stays within `[0, 48]`; otherwise nothing changes. -/
def spec_decrease_duty_cycle (s : State) : Option State :=
  if 0 ≤ s.g_duty_cycle - 1 ∧ s.g_duty_cycle - 1 ≤ 48 then
    setFrequencyDutyCycle s s.g_frequency_kHz (s.g_duty_cycle - 1)
  else
    some s

/-- The state that `setFrequencyDutyCycle(10, 50)` produces from the reset state. -/
def state_10kHz_50pct : State :=
  { g_frequency_kHz := 10, g_period_us := 100, g_duty_cycle := 50, g_period_ticks := 800,
    g_on_ticks := 400, TCCR1A := 0, TCCR1B := 1, ICR1 := 800, OCR1A := 400, OCR1B := 400,
    TCNT1 := 399, serial := "" }

/-- The state that `setFrequencyDutyCycle(10, 48)` produces from the reset state. -/
def state_10kHz_48pct : State :=
  { g_frequency_kHz := 10, g_period_us := 100, g_duty_cycle := 48, g_period_ticks := 800,
    g_on_ticks := 384, TCCR1A := 0, TCCR1B := 1, ICR1 := 800, OCR1A := 384, OCR1B := 416,
    TCNT1 := 383, serial := "" }

/-- The state that `setFrequencyDutyCycle(10, 0)` produces from the reset state. -/
def state_10kHz_0pct : State :=
  { g_frequency_kHz := 10, g_period_us := 100, g_duty_cycle := 0, g_period_ticks := 800,
    g_on_ticks := 0, TCCR1A := 0, TCCR1B := 1, ICR1 := 800, OCR1A := 0, OCR1B := 800,
    TCNT1 := 65535, serial := "" }

/-! ## Timer set-up and start-up -/

/-- Bit numbers of the compare-output-mode bits of `TCCR1A`. The sketch takes the names
`COM1A1`, `COM1A0`, `COM1B1`, `COM1B0` from the AVR device header, which is not part of it;
they are a parameter of the set-up here. -/
structure Timer1Bits where
  COM1A1 : Nat
  COM1A0 : Nat
  COM1B1 : Nat
  COM1B0 : Nat
deriving DecidableEq, Repr

/-- The bit numbers of the ATmega328P, the device the sketch is written for. -/
def atmega328p : Timer1Bits :=
  { COM1A1 := 7, COM1A0 := 6, COM1B1 := 5, COM1B0 := 4 }

/-- Source: `#define PIN_PRI_A 9`. -/
def PIN_PRI_A : Nat := 9

/-- Source: `#define PIN_PRI_B 10`. -/
def PIN_PRI_B : Nat := 10

/-- Modelled from the spec: the Arduino core's `analogWrite(pin, val)` is not part of the
sketch; the spec only says that it drives the pins to a neutral state. On pin 9 (channel A)
and pin 10 (channel B), for a value other than 0 and 255, the core sets the pin's `COM1x1`
bit in `TCCR1A` and writes the value to `OCR1x`; for 0 and 255 it clears that bit. Pin
direction and level are outside the state kept here. -/
def analogWrite (hw : Timer1Bits) (s : State) (pin val : Nat) : State :=
  if pin = 9 then
    if val = 0 ∨ val = 255 then
      { s with TCCR1A := toReg8 (s.TCCR1A &&& complement16 (1 <<< hw.COM1A1)) }
    else
      let s := { s with TCCR1A := toReg8 (s.TCCR1A ||| (1 <<< hw.COM1A1)) }
      { s with OCR1A := toReg16 val }
  else if pin = 10 then
    if val = 0 ∨ val = 255 then
      { s with TCCR1A := toReg8 (s.TCCR1A &&& complement16 (1 <<< hw.COM1B1)) }
    else
      let s := { s with TCCR1A := toReg8 (s.TCCR1A ||| (1 <<< hw.COM1B1)) }
      { s with OCR1B := toReg16 val }
  else
    s

/-- Source: `void setupTimer(bool inverted)`, statement by statement. -/
def setupTimer (hw : Timer1Bits) (s : State) (inverted : Bool) : State :=
  -- analogWrite(PIN_PRI_A,128); analogWrite(PIN_PRI_B,128);
  let s := analogWrite hw s PIN_PRI_A 128
  let s := analogWrite hw s PIN_PRI_B 128
  -- TCCR1B = 0x00;
  let s := { s with TCCR1B := toReg8 0x00 }
  let s :=
    if inverted then
      -- TCCR1A = (1 << COM1A1) | (1 << COM1A0) | (1 << COM1B1) | (0 << COM1B0);
      let a := (1 <<< hw.COM1A1) ||| (1 <<< hw.COM1A0) ||| (1 <<< hw.COM1B1) ||| (0 <<< hw.COM1B0)
      { s with TCCR1A := toReg8 a }
    else
      -- TCCR1A = (1 << COM1A1) | (0 << COM1A0) | (1 << COM1B1) | (1 << COM1B0);
      let a := (1 <<< hw.COM1A1) ||| (0 <<< hw.COM1A0) ||| (1 <<< hw.COM1B1) ||| (1 <<< hw.COM1B0)
      { s with TCCR1A := toReg8 a }
  -- TCCR1B = 0x10;
  { s with TCCR1B := toReg8 0x10 }

/-- `Serial.begin(baud)`: opening the port sends nothing. -/
def Serial_begin (s : State) (_baud : Nat) : State := s

/-- Source: `void setup()`. -/
def setup (hw : Timer1Bits) (s : State) : Option State := do
  let s := Serial_begin s 9600
  let s := setupTimer hw s true
  let s ← setFrequencyDutyCycle s default_frequency_kHz default_duty_cycle
  pure (printDebugInfo s)

/-! ## The register writes of `setFrequencyDutyCycle`, in program order -/

/-- The Timer 1 registers that the sketch writes. -/
inductive Register where
  | TCCR1A
  | TCCR1B
  | ICR1
  | OCR1A
  | OCR1B
  | TCNT1
deriving DecidableEq, Repr

/-- Source: `void setFrequencyDutyCycle(int frequency_kHz, int duty_cycle)` once more, this
time returning every register write in program order: the register written and the state
right after the write. -/
def setFrequencyDutyCycle_writes (s : State) (frequency_kHz duty_cycle : Int) :
    Option (List (Register × State)) := do
  let s := { s with g_frequency_kHz := frequency_kHz }
  let s := { s with g_duty_cycle := duty_cycle }
  let period ← calculatePeriod frequency_kHz
  let s := { s with g_period_us := period }
  let cycles := microsecondsToClockCycles (Int.tdiv s.g_period_us 2)
  let s := { s with g_period_ticks := toULong (Int.tdiv cycles TIMER1_PRESCALE) }
  let s := { s with g_on_ticks := wrapULong (s.g_period_ticks * toULong duty_cycle) / 100 }
  -- TCCR1B &= ~TCCR1B_CS20;
  let w1 := { s with TCCR1B := toReg8 (s.TCCR1B &&& complement16 TCCR1B_CS20) }
  -- ICR1 = g_period_ticks;
  let w2 := { w1 with ICR1 := toReg16 w1.g_period_ticks }
  -- OCR1A = g_on_ticks;
  let w3 := { w2 with OCR1A := toReg16 w2.g_on_ticks }
  -- OCR1B = g_period_ticks - g_on_ticks;
  let w4 := { w3 with OCR1B := toReg16 (wrapULong (w3.g_period_ticks + 4294967296 - w3.g_on_ticks)) }
  -- TCNT1 = OCR1A - 1;
  let w5 := { w4 with TCNT1 := toReg16 (w4.OCR1A + 65536 - 1) }
  -- TCCR1B |= TCCR1B_CS20;
  let w6 := { w5 with TCCR1B := toReg8 (w5.TCCR1B ||| TCCR1B_CS20) }
  pure [(Register.TCCR1B, w1), (Register.ICR1, w2), (Register.OCR1A, w3),
    (Register.OCR1B, w4), (Register.TCNT1, w5), (Register.TCCR1B, w6)]

/-- The clock-select field `CS12:0` of `TCCR1B`, its three low bits; 0 means the counter
is stopped. -/
def clockSelect (s : State) : Nat := s.TCCR1B % 8

/-! ## Sequences of engine operations -/

/-- The operations of the parameter engine. -/
inductive EngineOp where
  | set (frequency_kHz duty_cycle : Int)
  | increase
  | decrease
deriving DecidableEq, Repr

/-- One engine operation. -/
def EngineOp.run (s : State) : EngineOp → Option State
  | EngineOp.set frequency_kHz duty_cycle => setFrequencyDutyCycle s frequency_kHz duty_cycle
  | EngineOp.increase => increaseDutyCycle s
  | EngineOp.decrease => decreaseDutyCycle s

/-- A sequence of engine operations, one after the other. -/
def runEngine (s : State) : List EngineOp → Option State
  | [] => some s
  | op :: rest =>
    match op.run s with
    | none => none
    | some s1 => runEngine s1 rest

/-- Whether an operation is within the engine's contract: a frequency of at least 1. -/
def EngineOp.frequencyOk : EngineOp → Bool
  | EngineOp.set frequency_kHz _ => decide (1 ≤ frequency_kHz)
  | EngineOp.increase => true
  | EngineOp.decrease => true

/-- The engine operation that the loop body of `loop()` performs for the byte `ch` in the
state `s`, if any: the branches of the source, with the call each one makes. -/
def commandOf (s : State) (ch : Int) : Option EngineOp :=
  if ch = (Char.toNat '0' : Int) then
    some (EngineOp.set 100 default_duty_cycle)
  else if ch ≥ (Char.toNat '1' : Int) ∧ ch ≤ (Char.toNat '9' : Int) then
    some (EngineOp.set ((ch - (Char.toNat '0' : Int)) * 10) default_duty_cycle)
  else if ch = (Char.toNat ',' : Int) then
    some EngineOp.decrease
  else if ch = (Char.toNat '.' : Int) then
    some EngineOp.increase
  else if ch = (Char.toNat ' ' : Int) then
    if s.g_duty_cycle ≠ 48 then
      some (EngineOp.set s.g_frequency_kHz 48)
    else
      some (EngineOp.set s.g_frequency_kHz 10)
  else
    none

/-- The operating range of the command loop: a frequency of 10, 20, ..., 100 kHz, a duty
cycle in `[0, 48]`, and a period of 80 to 800 ticks. -/
def InOperatingRange (s : State) : Prop :=
  s.g_frequency_kHz ∈ ([10, 20, 30, 40, 50, 60, 70, 80, 90, 100] : List Int) ∧
  0 ≤ s.g_duty_cycle ∧ s.g_duty_cycle ≤ 48 ∧
  80 ≤ s.g_period_ticks ∧ s.g_period_ticks ≤ 800

/-- The derived globals and the period and compare registers are the values that
`setFrequencyDutyCycle` computes from the stored frequency and duty cycle. -/
def DerivedConsistent (s : State) : Prop :=
  ∃ s1, setFrequencyDutyCycle s s.g_frequency_kHz s.g_duty_cycle = some s1 ∧
    s1.g_period_us = s.g_period_us ∧ s1.g_period_ticks = s.g_period_ticks ∧
    s1.g_on_ticks = s.g_on_ticks ∧ s1.ICR1 = s.ICR1 ∧ s1.OCR1A = s.OCR1A ∧
    s1.OCR1B = s.OCR1B

/-- The state is one that `setFrequencyDutyCycle` has produced and nothing has disturbed:
the stored frequency is at least 1 and a call with the stored parameters changes nothing. -/
def Settled (s : State) : Prop :=
  1 ≤ s.g_frequency_kHz ∧
  setFrequencyDutyCycle s s.g_frequency_kHz s.g_duty_cycle = some s

/-- The prior state used in the examples: as after reset, with `TCCR1A` and `TCCR1B` as
the Arduino core's start-up code leaves them. -/
def state_at_startup : State :=
  { State.zero with TCCR1A := 1, TCCR1B := 3 }

/-- The state after `setupTimer(true)`, `setFrequencyDutyCycle(10, 20)` and one
`increaseDutyCycle()` on the ATmega328P, from `state_at_startup`. -/
def state_10kHz_21pct : State :=
  { g_frequency_kHz := 10, g_period_us := 100, g_duty_cycle := 21, g_period_ticks := 800,
    g_on_ticks := 168, TCCR1A := 224, TCCR1B := 17, ICR1 := 800, OCR1A := 168, OCR1B := 632,
    TCNT1 := 167, serial := "" }

/-! ## Auxiliary facts -/

/-- For a nonzero frequency the call returns, and each field of the new state is given by
the corresponding assignment of the source. -/
theorem setFrequencyDutyCycle_fields (s : State) (f d : Int) (hf : f ≠ 0) :
    ∃ s1, setFrequencyDutyCycle s f d = some s1 ∧
      s1.g_frequency_kHz = f ∧ s1.g_duty_cycle = d ∧
      s1.g_period_us = Int.tdiv 1000 f ∧
      s1.g_period_ticks =
        toULong (Int.tdiv (microsecondsToClockCycles (Int.tdiv s1.g_period_us 2))
          TIMER1_PRESCALE) ∧
      s1.g_on_ticks = wrapULong (s1.g_period_ticks * toULong d) / 100 ∧
      s1.TCCR1A = s.TCCR1A ∧
      s1.TCCR1B = toReg8 (toReg8 (s.TCCR1B &&& complement16 TCCR1B_CS20) ||| TCCR1B_CS20) ∧
      s1.ICR1 = toReg16 s1.g_period_ticks ∧
      s1.OCR1A = toReg16 s1.g_on_ticks ∧
      s1.OCR1B = toReg16 (wrapULong (s1.g_period_ticks + 4294967296 - s1.g_on_ticks)) ∧
      s1.TCNT1 = toReg16 (s1.OCR1A + 65536 - 1) ∧
      s1.serial = s.serial := by
  rw [setFrequencyDutyCycle, calculatePeriod, if_neg hf]
  exact ⟨_, rfl, rfl, rfl, rfl, rfl, rfl, rfl, rfl, rfl, rfl, rfl, rfl, rfl⟩

/-- Stopping and restarting the clock twice leaves `TCCR1B` as after doing it once. -/
theorem clock_restart_idem (t : Nat) :
    toReg8 (toReg8 (toReg8 (toReg8 (t &&& complement16 TCCR1B_CS20) ||| TCCR1B_CS20)
        &&& complement16 TCCR1B_CS20) ||| TCCR1B_CS20)
      = toReg8 (toReg8 (t &&& complement16 TCCR1B_CS20) ||| TCCR1B_CS20) := by
  have h256 : (256 : Nat) = 2 ^ 8 := by norm_num
  simp only [toReg8, complement16, TCCR1B_CS20, h256]
  apply Nat.eq_of_testBit_eq
  intro i
  simp only [Nat.testBit_mod_two_pow, Nat.testBit_lor, Nat.testBit_land]
  cases Nat.testBit t i <;> cases Nat.testBit 1 i <;> simp

/-- The call overwrites `g_duty_cycle` before reading it: the value it had is irrelevant. -/
theorem setFrequencyDutyCycle_forgets_duty (s : State) (c f d : Int) :
    setFrequencyDutyCycle { s with g_duty_cycle := c } f d = setFrequencyDutyCycle s f d := rfl

/-- For a nonzero frequency the call returns. -/
theorem setFrequencyDutyCycle_isSome (s : State) (f d : Int) (hf : f ≠ 0) :
    (setFrequencyDutyCycle s f d).isSome = true := by
  obtain ⟨s1, hs, -⟩ := setFrequencyDutyCycle_fields s f d hf
  rw [hs]; rfl

/-- Sizes for a frequency of at least 1 kHz: the period is at most 1000 us and the
half-period is at most 8000 ticks, with no wrap-around in the conversion. -/
theorem period_bounds (f : Int) (hf : 1 ≤ f) :
    Int.tdiv 1000 f = 1000 / f ∧ 0 ≤ (1000 : Int) / f ∧ (1000 : Int) / f ≤ 1000 ∧
    ((toULong (Int.tdiv (microsecondsToClockCycles (Int.tdiv (Int.tdiv 1000 f) 2))
        TIMER1_PRESCALE) : Nat) : Int) = 16 * ((1000 / f) / 2) ∧
    toULong (Int.tdiv (microsecondsToClockCycles (Int.tdiv (Int.tdiv 1000 f) 2))
        TIMER1_PRESCALE) ≤ 8000 := by
  have h0 : Int.tdiv 1000 f = 1000 / f := Int.tdiv_eq_ediv (by norm_num) (by omega)
  have h1 : 0 ≤ (1000 : Int) / f := Int.ediv_nonneg (by norm_num) (by omega)
  have h2 : (1000 : Int) / f ≤ 1000 := Int.ediv_le_self _ (by norm_num)
  rw [h0]
  generalize (1000 : Int) / f = p at h1 h2 ⊢
  have h3 : Int.tdiv p 2 = p / 2 := Int.tdiv_eq_ediv h1 (by norm_num)
  have h4 : Int.tdiv (p / 2 * 16) 1 = p / 2 * 16 := by simp
  simp only [microsecondsToClockCycles, clockCyclesPerMicrosecond, TIMER1_PRESCALE, toULong,
    h3, h4]
  refine ⟨trivial, h1, h2, ?_, ?_⟩
  · omega
  · omega

/-- In the operating range (frequency at least 1 kHz, duty cycle 0..100) no conversion
wraps: the globals and the three 16-bit registers hold the exact quotients. -/
theorem setFrequencyDutyCycle_in_range (s : State) (f d : Int) (hf : 1 ≤ f) (hd0 : 0 ≤ d)
    (hd1 : d ≤ 100) :
    ∃ s1, setFrequencyDutyCycle s f d = some s1 ∧
      s1.g_frequency_kHz = f ∧ s1.g_duty_cycle = d ∧
      s1.g_period_us = 1000 / f ∧
      (s1.g_period_ticks : Int) = 16 * (s1.g_period_us / 2) ∧
      s1.g_period_ticks ≤ 8000 ∧
      s1.g_on_ticks = s1.g_period_ticks * d.toNat / 100 ∧
      s1.g_on_ticks ≤ s1.g_period_ticks ∧
      s1.ICR1 = s1.g_period_ticks ∧
      s1.OCR1A = s1.g_on_ticks ∧
      s1.OCR1B = s1.g_period_ticks - s1.g_on_ticks := by
  obtain ⟨s1, hs, hfr, hdc, hus, hpt, hon, -, -, hicr, hoa, hob, -, -⟩ :=
    setFrequencyDutyCycle_fields s f d (by omega)
  obtain ⟨e0, -, -, e3, e4⟩ := period_bounds f hf
  rw [hus] at hpt
  have hd : toULong d = d.toNat := by
    simp only [toULong]
    omega
  have hT : s1.g_period_ticks ≤ 8000 := by rw [hpt]; exact e4
  have hD : d.toNat ≤ 100 := by omega
  have hmul : s1.g_period_ticks * d.toNat ≤ s1.g_period_ticks * 100 :=
    Nat.mul_le_mul_left _ hD
  have hmul2 : s1.g_period_ticks * d.toNat ≤ 800000 := by
    calc s1.g_period_ticks * d.toNat ≤ 8000 * 100 := Nat.mul_le_mul hT hD
      _ = 800000 := by norm_num
  have hon2 : s1.g_on_ticks = s1.g_period_ticks * d.toNat / 100 := by
    rw [hon, hd, wrapULong, Nat.mod_eq_of_lt (by omega)]
  have hle : s1.g_on_ticks ≤ s1.g_period_ticks := by
    rw [hon2]
    exact Nat.div_le_of_le_mul (by omega)
  refine ⟨s1, hs, hfr, hdc, by rw [hus, e0], ?_, hT, hon2, hle, ?_, ?_, ?_⟩
  · rw [hus, e0, hpt, e3]
  · rw [hicr, toReg16]; omega
  · rw [hoa, toReg16]; omega
  · rw [hob, toReg16, wrapULong]; omega

/-- Reporting changes the serial text only. -/
theorem printDebugInfo_frame (s : State) :
    printDebugInfo s = { s with serial := (printDebugInfo s).serial } := by
  simp only [printDebugInfo, Serial_print, Serial_println]

/-- Reporting leaves every global and every register as it was. -/
theorem printDebugInfo_fields (s : State) :
    (printDebugInfo s).g_frequency_kHz = s.g_frequency_kHz ∧
    (printDebugInfo s).g_period_us = s.g_period_us ∧
    (printDebugInfo s).g_duty_cycle = s.g_duty_cycle ∧
    (printDebugInfo s).g_period_ticks = s.g_period_ticks ∧
    (printDebugInfo s).g_on_ticks = s.g_on_ticks ∧
    (printDebugInfo s).TCCR1A = s.TCCR1A ∧ (printDebugInfo s).TCCR1B = s.TCCR1B ∧
    (printDebugInfo s).ICR1 = s.ICR1 ∧ (printDebugInfo s).OCR1A = s.OCR1A ∧
    (printDebugInfo s).OCR1B = s.OCR1B ∧ (printDebugInfo s).TCNT1 = s.TCNT1 := by
  refine ⟨?_, ?_, ?_, ?_, ?_, ?_, ?_, ?_, ?_, ?_, ?_⟩ <;> rw [printDebugInfo_frame]

/-- Setting the parameters and then reporting, as the command loop does: for a nonzero
frequency this returns a state holding the frequency and the duty cycle that were set. -/
theorem set_then_report (s : State) (f d : Int) (hf : f ≠ 0) :
    ∃ s1, (setFrequencyDutyCycle s f d).map printDebugInfo = some s1 ∧
      s1.g_frequency_kHz = f ∧ s1.g_duty_cycle = d := by
  obtain ⟨u, hu, b1, b2, -⟩ := setFrequencyDutyCycle_fields s f d hf
  obtain ⟨p1, -, p3, -⟩ := printDebugInfo_fields u
  refine ⟨printDebugInfo u, ?_, ?_, ?_⟩
  · rw [hu, Option.map_some']
  · rw [p1, b1]
  · rw [p3, b2]

/-- The monadic sequencing of the loop body is a map of the report over the command. -/
theorem bind_report (o : Option State) :
    (o >>= fun u => pure (printDebugInfo u)) = o.map printDebugInfo := by
  cases o with
  | none => exact Eq.refl none
  | some u => exact Eq.refl (some (printDebugInfo u))

/-- The command loop on a byte that is no command: only the report is made. -/
theorem loop_step_other (s : State) (ch : Int)
    (hdigit : ¬ ((Char.toNat '0' : Int) ≤ ch ∧ ch ≤ (Char.toNat '9' : Int)))
    (hcomma : ch ≠ (Char.toNat ',' : Int)) (hdot : ch ≠ (Char.toNat '.' : Int))
    (hspace : ch ≠ (Char.toNat ' ' : Int)) :
    loop_step s ch = some (printDebugInfo s) := by
  have h0 : ¬ ch = (Char.toNat '0' : Int) := by
    intro h; apply hdigit; rw [h]; decide
  have h19 : ¬ (ch ≥ (Char.toNat '1' : Int) ∧ ch ≤ (Char.toNat '9' : Int)) := by
    intro h; apply hdigit
    have : (Char.toNat '0' : Int) ≤ (Char.toNat '1' : Int) := by decide
    exact ⟨le_trans this h.1, h.2⟩
  unfold loop_step
  rw [if_neg h0, if_neg h19, if_neg hcomma, if_neg hdot, if_neg hspace, bind_report,
    Option.map_some']

/-- The command loop on a digit: the frequency is set, with the default duty cycle. -/
theorem loop_step_digit (s : State) (ch : Int) :
    loop_step s (Char.toNat '0' : Int) =
      (setFrequencyDutyCycle s 100 default_duty_cycle).map printDebugInfo ∧
    ((Char.toNat '1' : Int) ≤ ch → ch ≤ (Char.toNat '9' : Int) →
      loop_step s ch =
        (setFrequencyDutyCycle s ((ch - (Char.toNat '0' : Int)) * 10)
          default_duty_cycle).map printDebugInfo) := by
  constructor
  · unfold loop_step
    rw [if_pos rfl, bind_report]
  · intro h1 h9
    have h0 : ¬ ch = (Char.toNat '0' : Int) := by
      intro h; rw [h] at h1; revert h1; decide
    unfold loop_step
    rw [if_neg h0, if_pos ⟨h1, h9⟩, bind_report]

/-- The command loop on the space byte: the duty cycle is set to 48, or to 10 if it is 48. -/
theorem loop_step_space (s : State) :
    loop_step s (Char.toNat ' ' : Int) =
      (if s.g_duty_cycle ≠ 48 then setFrequencyDutyCycle s s.g_frequency_kHz 48
        else setFrequencyDutyCycle s s.g_frequency_kHz 10).map printDebugInfo := by
  unfold loop_step
  rw [if_neg (by decide), if_neg (by decide), if_neg (by decide), if_neg (by decide),
    if_pos rfl]
  by_cases h : s.g_duty_cycle ≠ 48
  · rw [if_pos h, if_pos h, bind_report]
  · rw [if_neg h, if_neg h, bind_report]

/-- The three named states are what the engine produces from the reset state. -/
theorem named_states_reached :
    setFrequencyDutyCycle State.zero 10 50 = some state_10kHz_50pct ∧
    setFrequencyDutyCycle State.zero 10 48 = some state_10kHz_48pct ∧
    setFrequencyDutyCycle State.zero 10 0 = some state_10kHz_0pct := by
  decide

/-! ## Claims -/

/-- C1: for every frequency of at least 1 kHz and every duty cycle in 0..100,
`setFrequencyDutyCycle` returns, stores both arguments, and leaves
`g_period_us = 1000 / frequency_kHz`, `g_period_ticks = 16 * (g_period_us / 2) / 1` and
`g_on_ticks = g_period_ticks * duty_cycle / 100`, all divisions truncating and none of the
values wrapped; and `calculatePeriod 3` is 333. -/
theorem C1_setFrequencyDutyCycle_values (s : State) (f d : Int) (hf : 1 ≤ f) (hd0 : 0 ≤ d)
    (hd1 : d ≤ 100) :
    (∃ s1, setFrequencyDutyCycle s f d = some s1 ∧
      s1.g_frequency_kHz = f ∧ s1.g_duty_cycle = d ∧
      s1.g_period_us = Int.tdiv 1000 f ∧
      (s1.g_period_ticks : Int) = Int.tdiv (16 * Int.tdiv s1.g_period_us 2) 1 ∧
      (s1.g_on_ticks : Int) = Int.tdiv ((s1.g_period_ticks : Int) * d) 100) ∧
    calculatePeriod 3 = some 333 := by
  obtain ⟨s1, hs, hfr, hdc, hus, hpt, -, hon, -, -, -, -⟩ :=
    setFrequencyDutyCycle_in_range s f d hf hd0 hd1
  obtain ⟨e0, e1, -, -, -⟩ := period_bounds f hf
  refine ⟨⟨s1, hs, hfr, hdc, by rw [hus, e0], ?_, ?_⟩, by decide⟩
  · rw [hpt, hus, Int.tdiv_eq_ediv e1 (by norm_num)]
    simp
  · rw [Int.tdiv_eq_ediv (by positivity) (by norm_num), hon]
    push_cast
    rw [Int.toNat_of_nonneg hd0]

/-- C1, at 3 kHz and 20 %. -/
theorem C1_setFrequencyDutyCycle_values_witness :
    (∃ s1, setFrequencyDutyCycle State.zero 3 20 = some s1 ∧
      s1.g_frequency_kHz = 3 ∧ s1.g_duty_cycle = 20 ∧
      s1.g_period_us = Int.tdiv 1000 3 ∧
      (s1.g_period_ticks : Int) = Int.tdiv (16 * Int.tdiv s1.g_period_us 2) 1 ∧
      (s1.g_on_ticks : Int) = Int.tdiv ((s1.g_period_ticks : Int) * 20) 100) ∧
    calculatePeriod 3 = some 333 :=
  C1_setFrequencyDutyCycle_values State.zero 3 20 (by decide) (by decide) (by decide)

/-- C2: for every frequency of at least 1 kHz and every duty cycle in 0..100, after
`setFrequencyDutyCycle` the 16-bit registers hold `ICR1 = g_period_ticks`,
`OCR1A = g_on_ticks`, `OCR1B = g_period_ticks - g_on_ticks` (the difference taken in the
integers, so nothing wrapped or was truncated), and `OCR1A + OCR1B = ICR1`. -/
theorem C2_compare_values_sum_to_period (s : State) (f d : Int) (hf : 1 ≤ f) (hd0 : 0 ≤ d)
    (hd1 : d ≤ 100) :
    ∃ s1, setFrequencyDutyCycle s f d = some s1 ∧
      s1.ICR1 = s1.g_period_ticks ∧
      s1.OCR1A = s1.g_on_ticks ∧
      (s1.OCR1B : Int) = (s1.g_period_ticks : Int) - (s1.g_on_ticks : Int) ∧
      s1.OCR1A + s1.OCR1B = s1.ICR1 := by
  obtain ⟨s1, hs, -, -, -, -, -, -, hle, hicr, hoa, hob⟩ :=
    setFrequencyDutyCycle_in_range s f d hf hd0 hd1
  refine ⟨s1, hs, hicr, hoa, ?_, ?_⟩
  · rw [hob]; omega
  · rw [hicr, hoa, hob]; omega

/-- C2, at 30 kHz and 48 %. -/
theorem C2_compare_values_sum_to_period_witness :
    ∃ s1, setFrequencyDutyCycle State.zero 30 48 = some s1 ∧
      s1.ICR1 = s1.g_period_ticks ∧
      s1.OCR1A = s1.g_on_ticks ∧
      (s1.OCR1B : Int) = (s1.g_period_ticks : Int) - (s1.g_on_ticks : Int) ∧
      s1.OCR1A + s1.OCR1B = s1.ICR1 :=
  C2_compare_values_sum_to_period State.zero 30 48 (by decide) (by decide) (by decide)

/-- C3: for every frequency of at least 1 kHz and every duty cycle in 0..100, after
`setFrequencyDutyCycle` the on-time satisfies `0 ≤ g_on_ticks ≤ g_period_ticks`. -/
theorem C3_on_ticks_within_period (s : State) (f d : Int) (hf : 1 ≤ f) (hd0 : 0 ≤ d)
    (hd1 : d ≤ 100) :
    ∃ s1, setFrequencyDutyCycle s f d = some s1 ∧
      0 ≤ s1.g_on_ticks ∧ s1.g_on_ticks ≤ s1.g_period_ticks := by
  obtain ⟨s1, hs, -, -, -, -, -, -, hle, -, -, -⟩ :=
    setFrequencyDutyCycle_in_range s f d hf hd0 hd1
  exact ⟨s1, hs, Nat.zero_le _, hle⟩

/-- C3, at 7 kHz and 100 %. -/
theorem C3_on_ticks_within_period_witness :
    ∃ s1, setFrequencyDutyCycle State.zero 7 100 = some s1 ∧
      0 ≤ s1.g_on_ticks ∧ s1.g_on_ticks ≤ s1.g_period_ticks :=
  C3_on_ticks_within_period State.zero 7 100 (by decide) (by decide) (by decide)

/-- C4: the two worked examples. From any state, `setFrequencyDutyCycle(10, 20)` gives
`g_period_us = 100`, `g_period_ticks = 800`, `g_on_ticks = 160`, `OCR1B = 640`, and
`setFrequencyDutyCycle(100, 20)` gives `g_period_us = 10`, `g_period_ticks = 80`,
`g_on_ticks = 16`, `OCR1B = 64`. -/
theorem C4_worked_examples (s : State) :
    (∃ s1, setFrequencyDutyCycle s 10 20 = some s1 ∧
      s1.g_period_us = 100 ∧ s1.g_period_ticks = 800 ∧ s1.g_on_ticks = 160 ∧
      s1.OCR1B = 640) ∧
    (∃ s2, setFrequencyDutyCycle s 100 20 = some s2 ∧
      s2.g_period_us = 10 ∧ s2.g_period_ticks = 80 ∧ s2.g_on_ticks = 16 ∧
      s2.OCR1B = 64) := by
  constructor
  · obtain ⟨s1, hs, -, -, hus, hpt, hon, -, -, -, -, hob, -, -⟩ :=
      setFrequencyDutyCycle_fields s 10 20 (by decide)
    have e1 : s1.g_period_us = 100 := by rw [hus]; decide
    have e2 : s1.g_period_ticks = 800 := by rw [hpt, e1]; decide
    have e3 : s1.g_on_ticks = 160 := by rw [hon, e2]; decide
    exact ⟨s1, hs, e1, e2, e3, by rw [hob, e2, e3]; decide⟩
  · obtain ⟨s2, hs, -, -, hus, hpt, hon, -, -, -, -, hob, -, -⟩ :=
      setFrequencyDutyCycle_fields s 100 20 (by decide)
    have e1 : s2.g_period_us = 10 := by rw [hus]; decide
    have e2 : s2.g_period_ticks = 80 := by rw [hpt, e1]; decide
    have e3 : s2.g_on_ticks = 16 := by rw [hon, e2]; decide
    exact ⟨s2, hs, e1, e2, e3, by rw [hob, e2, e3]; decide⟩

/-- C5 as stated fails for `decreaseDutyCycle`: in the state reached by
`setFrequencyDutyCycle(10, 50)` the duty cycle is in 0..100 and the frequency is at least 1,
the reference definition ignores the request (49 is outside `[0, 48]`), but the code steps
down to 49 and rewrites the registers. -/
theorem C5_decrease_differs_from_reference_at_50 :
    setFrequencyDutyCycle State.zero 10 50 = some state_10kHz_50pct ∧
    (0 ≤ state_10kHz_50pct.g_duty_cycle ∧ state_10kHz_50pct.g_duty_cycle ≤ 100 ∧
      1 ≤ state_10kHz_50pct.g_frequency_kHz) ∧
    spec_decrease_duty_cycle state_10kHz_50pct = some state_10kHz_50pct ∧
    decreaseDutyCycle state_10kHz_50pct =
      setFrequencyDutyCycle state_10kHz_50pct 10 49 ∧
    (decreaseDutyCycle state_10kHz_50pct).map State.g_duty_cycle = some 49 ∧
    (decreaseDutyCycle state_10kHz_50pct).map State.OCR1A = some 392 ∧
    decreaseDutyCycle state_10kHz_50pct ≠ spec_decrease_duty_cycle state_10kHz_50pct := by
  decide

/-- C5, amended: in every state with duty cycle in 0..100 and frequency at least 1 kHz both
steps return; `increaseDutyCycle` is the reference definition (reapply with duty + 1 if that
is within `[0, 48]`, else no change); `decreaseDutyCycle` reapplies with duty - 1 whenever
that is at least 0 and otherwise changes nothing, checking the lower limit only, so it is
the reference definition whenever the duty cycle is at most 49. -/
theorem C5_steps_vs_reference (s : State) (hd0 : 0 ≤ s.g_duty_cycle)
    (hd1 : s.g_duty_cycle ≤ 100) (hf : 1 ≤ s.g_frequency_kHz) :
    ((increaseDutyCycle s).isSome = true ∧ (decreaseDutyCycle s).isSome = true) ∧
    increaseDutyCycle s = spec_increase_duty_cycle s ∧
    decreaseDutyCycle s =
      (if 0 ≤ s.g_duty_cycle - 1 then
        setFrequencyDutyCycle s s.g_frequency_kHz (s.g_duty_cycle - 1)
      else some s) ∧
    (s.g_duty_cycle ≤ 49 → decreaseDutyCycle s = spec_decrease_duty_cycle s) := by
  have hinc : increaseDutyCycle s = spec_increase_duty_cycle s := by
    unfold increaseDutyCycle spec_increase_duty_cycle
    by_cases h : s.g_duty_cycle < 48
    · rw [if_pos h, if_pos ⟨by omega, by omega⟩]
      exact setFrequencyDutyCycle_forgets_duty s _ _ _
    · rw [if_neg h, if_neg (by omega)]
  have hdec : decreaseDutyCycle s =
      (if 0 ≤ s.g_duty_cycle - 1 then
        setFrequencyDutyCycle s s.g_frequency_kHz (s.g_duty_cycle - 1)
      else some s) := by
    unfold decreaseDutyCycle
    by_cases h : s.g_duty_cycle > 0
    · rw [if_pos h, if_pos (by omega)]
      exact setFrequencyDutyCycle_forgets_duty s _ _ _
    · rw [if_neg h, if_neg (by omega)]
  have hret : ∀ d : Int, (setFrequencyDutyCycle s s.g_frequency_kHz d).isSome = true :=
    fun d => setFrequencyDutyCycle_isSome s _ d (by omega)
  refine ⟨⟨?_, ?_⟩, hinc, hdec, ?_⟩
  · rw [hinc]; unfold spec_increase_duty_cycle
    split
    · exact hret _
    · rfl
  · rw [hdec]
    split
    · exact hret _
    · rfl
  · intro h49
    rw [hdec]; unfold spec_decrease_duty_cycle
    by_cases h : 0 ≤ s.g_duty_cycle - 1
    · rw [if_pos h, if_pos ⟨h, by omega⟩]
    · rw [if_neg h, if_neg (fun hh => h hh.1)]

/-- C5 amended, in the state reached by `setFrequencyDutyCycle(10, 50)`. -/
theorem C5_steps_vs_reference_witness :
    ((increaseDutyCycle state_10kHz_50pct).isSome = true ∧
      (decreaseDutyCycle state_10kHz_50pct).isSome = true) ∧
    increaseDutyCycle state_10kHz_50pct = spec_increase_duty_cycle state_10kHz_50pct ∧
    decreaseDutyCycle state_10kHz_50pct =
      (if 0 ≤ state_10kHz_50pct.g_duty_cycle - 1 then
        setFrequencyDutyCycle state_10kHz_50pct state_10kHz_50pct.g_frequency_kHz
          (state_10kHz_50pct.g_duty_cycle - 1)
      else some state_10kHz_50pct) ∧
    (state_10kHz_50pct.g_duty_cycle ≤ 49 →
      decreaseDutyCycle state_10kHz_50pct = spec_decrease_duty_cycle state_10kHz_50pct) :=
  C5_steps_vs_reference state_10kHz_50pct (by decide) (by decide) (by decide)

/-- C6: at the band limits the steps write nothing. `increaseDutyCycle` in a state with
`g_duty_cycle = 48` and `decreaseDutyCycle` in a state with `g_duty_cycle = 0` return the
state they were given: the duty cycle, every other global and every register unchanged. -/
theorem C6_steps_at_band_limits (s : State) :
    (s.g_duty_cycle = 48 → increaseDutyCycle s = some s) ∧
    (s.g_duty_cycle = 0 → decreaseDutyCycle s = some s) := by
  constructor
  · intro h
    unfold increaseDutyCycle
    rw [if_neg (by omega)]
  · intro h
    unfold decreaseDutyCycle
    rw [if_neg (by omega)]

/-- C6, at 10 kHz with duty cycle 48 for the increase and 0 for the decrease. -/
theorem C6_steps_at_band_limits_witness :
    (state_10kHz_48pct.g_duty_cycle = 48 ∧ state_10kHz_0pct.g_duty_cycle = 0) ∧
    increaseDutyCycle state_10kHz_48pct = some state_10kHz_48pct ∧
    decreaseDutyCycle state_10kHz_0pct = some state_10kHz_0pct :=
  ⟨⟨rfl, rfl⟩, (C6_steps_at_band_limits state_10kHz_48pct).1 rfl,
    (C6_steps_at_band_limits state_10kHz_0pct).2 rfl⟩

/-- C7: `setFrequencyDutyCycle` is idempotent. From every state, for every frequency of at
least 1 kHz and every duty cycle, the call returns a state from which the same call returns
that same state: all globals and `ICR1`, `OCR1A`, `OCR1B`, `TCNT1`, `TCCR1B` are as after
one call. -/
theorem C7_setFrequencyDutyCycle_idempotent (s : State) (f d : Int) (hf : 1 ≤ f) :
    ∃ s1, setFrequencyDutyCycle s f d = some s1 ∧ setFrequencyDutyCycle s1 f d = some s1 := by
  have hf0 : f ≠ 0 := by omega
  obtain ⟨s1, hs1, a1, a2, a3, a4, a5, a6, a7, a8, a9, a10, a11, a12⟩ :=
    setFrequencyDutyCycle_fields s f d hf0
  obtain ⟨s2, hs2, b1, b2, b3, b4, b5, b6, b7, b8, b9, b10, b11, b12⟩ :=
    setFrequencyDutyCycle_fields s1 f d hf0
  refine ⟨s1, hs1, ?_⟩
  rw [hs2]
  have e3 : s2.g_period_us = s1.g_period_us := by rw [b3, a3]
  have e4 : s2.g_period_ticks = s1.g_period_ticks := by rw [b4, a4, e3]
  have e5 : s2.g_on_ticks = s1.g_on_ticks := by rw [b5, a5, e4]
  have e9 : s2.OCR1A = s1.OCR1A := by rw [b9, a9, e5]
  congr 1
  apply State.ext
  · rw [b1, a1]
  · exact e3
  · rw [b2, a2]
  · exact e4
  · exact e5
  · exact b6
  · rw [b7, a7]; exact clock_restart_idem _
  · rw [b8, a8, e4]
  · exact e9
  · rw [b10, a10, e4, e5]
  · rw [b11, a11, e9]
  · exact b12

/-- C7, at 3 kHz and 33 % from the reset state. -/
theorem C7_setFrequencyDutyCycle_idempotent_witness :
    ∃ s1, setFrequencyDutyCycle State.zero 3 33 = some s1 ∧
      setFrequencyDutyCycle s1 3 33 = some s1 :=
  C7_setFrequencyDutyCycle_idempotent State.zero 3 33 (by decide)

/-- C8: the space byte toggles the duty cycle and keeps the frequency. For every frequency
`f` of at least 1 kHz, after `setFrequencyDutyCycle(f, 48)` the byte `' '` gives duty cycle
10 at frequency `f`, and `' '` again gives 48; and from every state `t` whose frequency is
at least 1 kHz, `' '` gives duty cycle 10 if it was 48 and 48 otherwise, with the frequency
unchanged. -/
theorem C8_space_toggles_duty (s : State) (f : Int) (hf : 1 ≤ f) (t : State)
    (ht : 1 ≤ t.g_frequency_kHz) :
    (∃ s1 s2 s3, setFrequencyDutyCycle s f 48 = some s1 ∧
      loop_step s1 (Char.toNat ' ' : Int) = some s2 ∧
      s2.g_duty_cycle = 10 ∧ s2.g_frequency_kHz = f ∧
      loop_step s2 (Char.toNat ' ' : Int) = some s3 ∧
      s3.g_duty_cycle = 48 ∧ s3.g_frequency_kHz = f) ∧
    (∃ t1, loop_step t (Char.toNat ' ' : Int) = some t1 ∧
      t1.g_duty_cycle = (if t.g_duty_cycle = 48 then 10 else 48) ∧
      t1.g_frequency_kHz = t.g_frequency_kHz) := by
  have hf0 : f ≠ 0 := by omega
  constructor
  · obtain ⟨s1, hs1, a1, a2, -⟩ := setFrequencyDutyCycle_fields s f 48 hf0
    obtain ⟨s2, hs2, b1, b2⟩ := set_then_report s1 f 10 hf0
    obtain ⟨s3, hs3, c1, c2⟩ := set_then_report s2 f 48 hf0
    refine ⟨s1, s2, s3, hs1, ?_, b2, b1, ?_, c2, c1⟩
    · rw [loop_step_space, if_neg (by rw [a2]; decide), a1, hs2]
    · rw [loop_step_space, if_pos (by rw [b2]; decide), b1, hs3]
  · by_cases h : t.g_duty_cycle = 48
    · obtain ⟨t1, ht1, b1, b2⟩ := set_then_report t t.g_frequency_kHz 10 (by omega)
      refine ⟨t1, ?_, ?_, b1⟩
      · rw [loop_step_space, if_neg (not_not.mpr h), ht1]
      · rw [if_pos h]; exact b2
    · obtain ⟨t1, ht1, b1, b2⟩ := set_then_report t t.g_frequency_kHz 48 (by omega)
      refine ⟨t1, ?_, ?_, b1⟩
      · rw [loop_step_space, if_pos h, ht1]
      · rw [if_neg h]; exact b2

/-- C8, at 30 kHz from the reset state, and from the 10 kHz, 48 % state. -/
theorem C8_space_toggles_duty_witness :
    (∃ s1 s2 s3, setFrequencyDutyCycle State.zero 30 48 = some s1 ∧
      loop_step s1 (Char.toNat ' ' : Int) = some s2 ∧
      s2.g_duty_cycle = 10 ∧ s2.g_frequency_kHz = 30 ∧
      loop_step s2 (Char.toNat ' ' : Int) = some s3 ∧
      s3.g_duty_cycle = 48 ∧ s3.g_frequency_kHz = 30) ∧
    (∃ t1, loop_step state_10kHz_48pct (Char.toNat ' ' : Int) = some t1 ∧
      t1.g_duty_cycle = (if state_10kHz_48pct.g_duty_cycle = 48 then 10 else 48) ∧
      t1.g_frequency_kHz = state_10kHz_48pct.g_frequency_kHz) :=
  C8_space_toggles_duty State.zero 30 (by decide) state_10kHz_48pct (by decide)

/-- C9: a digit byte sets the frequency from the digit and the duty cycle to the default
20 %, whatever the state was: `'0'` gives 100 kHz, a byte `c` in `'1'..'9'` gives
`(c - '0') * 10` kHz, in particular `'3'` gives 30 kHz. -/
theorem C9_digit_sets_frequency (s : State) (c : Int) (h1 : (Char.toNat '1' : Int) ≤ c)
    (h9 : c ≤ (Char.toNat '9' : Int)) :
    (∃ s1, loop_step s (Char.toNat '0' : Int) = some s1 ∧
      s1.g_frequency_kHz = 100 ∧ s1.g_duty_cycle = 20) ∧
    (∃ s1, loop_step s c = some s1 ∧
      s1.g_frequency_kHz = (c - (Char.toNat '0' : Int)) * 10 ∧ s1.g_duty_cycle = 20) ∧
    (∃ s1, loop_step s (Char.toNat '3' : Int) = some s1 ∧
      s1.g_frequency_kHz = 30 ∧ s1.g_duty_cycle = 20) := by
  have key : ∀ f : Int, f ≠ 0 → ∃ s1,
      (setFrequencyDutyCycle s f default_duty_cycle).map printDebugInfo = some s1 ∧
      s1.g_frequency_kHz = f ∧ s1.g_duty_cycle = 20 :=
    fun f hf => set_then_report s f default_duty_cycle hf
  have c48 : (Char.toNat '0' : Int) = 48 := by decide
  have c49 : (Char.toNat '1' : Int) = 49 := by decide
  have c57 : (Char.toNat '9' : Int) = 57 := by decide
  refine ⟨?_, ?_, ?_⟩
  · rw [(loop_step_digit s c).1]
    exact key 100 (by decide)
  · rw [(loop_step_digit s c).2 h1 h9]
    exact key _ (by omega)
  · rw [(loop_step_digit s (Char.toNat '3' : Int)).2 (by decide) (by decide)]
    exact key 30 (by decide)

/-- C9, for the byte `'7'` in the 10 kHz, 48 % state. -/
theorem C9_digit_sets_frequency_witness :
    (∃ s1, loop_step state_10kHz_48pct (Char.toNat '0' : Int) = some s1 ∧
      s1.g_frequency_kHz = 100 ∧ s1.g_duty_cycle = 20) ∧
    (∃ s1, loop_step state_10kHz_48pct (Char.toNat '7' : Int) = some s1 ∧
      s1.g_frequency_kHz = ((Char.toNat '7' : Int) - (Char.toNat '0' : Int)) * 10 ∧
      s1.g_duty_cycle = 20) ∧
    (∃ s1, loop_step state_10kHz_48pct (Char.toNat '3' : Int) = some s1 ∧
      s1.g_frequency_kHz = 30 ∧ s1.g_duty_cycle = 20) :=
  C9_digit_sets_frequency state_10kHz_48pct (Char.toNat '7' : Int) (by decide) (by decide)

/-- C10: a byte other than `'0'..'9'`, `','`, `'.'` and `' '` is ignored by the command
loop: the step returns, and the five globals and all the timer registers are unchanged (the
step returns the given state with only the report added to the serial text). -/
theorem C10_other_bytes_ignored (s : State) (ch : Int)
    (hdigit : ¬ ((Char.toNat '0' : Int) ≤ ch ∧ ch ≤ (Char.toNat '9' : Int)))
    (hcomma : ch ≠ (Char.toNat ',' : Int)) (hdot : ch ≠ (Char.toNat '.' : Int))
    (hspace : ch ≠ (Char.toNat ' ' : Int)) :
    ∃ s1, loop_step s ch = some s1 ∧
      s1 = { s with serial := s1.serial } ∧
      s1.g_frequency_kHz = s.g_frequency_kHz ∧ s1.g_period_us = s.g_period_us ∧
      s1.g_duty_cycle = s.g_duty_cycle ∧ s1.g_period_ticks = s.g_period_ticks ∧
      s1.g_on_ticks = s.g_on_ticks ∧
      s1.TCCR1A = s.TCCR1A ∧ s1.TCCR1B = s.TCCR1B ∧ s1.ICR1 = s.ICR1 ∧
      s1.OCR1A = s.OCR1A ∧ s1.OCR1B = s.OCR1B ∧ s1.TCNT1 = s.TCNT1 :=
  ⟨printDebugInfo s, loop_step_other s ch hdigit hcomma hdot hspace, printDebugInfo_frame s,
    printDebugInfo_fields s⟩

/-- C10, for the byte `'x'` in the 10 kHz, 48 % state. -/
theorem C10_other_bytes_ignored_witness :
    ∃ s1, loop_step state_10kHz_48pct (Char.toNat 'x' : Int) = some s1 ∧
      s1 = { state_10kHz_48pct with serial := s1.serial } ∧
      s1.g_frequency_kHz = state_10kHz_48pct.g_frequency_kHz ∧
      s1.g_period_us = state_10kHz_48pct.g_period_us ∧
      s1.g_duty_cycle = state_10kHz_48pct.g_duty_cycle ∧
      s1.g_period_ticks = state_10kHz_48pct.g_period_ticks ∧
      s1.g_on_ticks = state_10kHz_48pct.g_on_ticks ∧
      s1.TCCR1A = state_10kHz_48pct.TCCR1A ∧ s1.TCCR1B = state_10kHz_48pct.TCCR1B ∧
      s1.ICR1 = state_10kHz_48pct.ICR1 ∧
      s1.OCR1A = state_10kHz_48pct.OCR1A ∧ s1.OCR1B = state_10kHz_48pct.OCR1B ∧
      s1.TCNT1 = state_10kHz_48pct.TCNT1 :=
  C10_other_bytes_ignored state_10kHz_48pct (Char.toNat 'x' : Int) (by decide) (by decide)
    (by decide) (by decide)

/-! ## Auxiliary facts: set-up, register writes, sequences of operations -/

/-- A call that returns was made with a nonzero frequency. -/
theorem setFrequencyDutyCycle_some_nonzero (s s1 : State) (f d : Int)
    (h : setFrequencyDutyCycle s f d = some s1) : f ≠ 0 := by
  intro hf
  rw [setFrequencyDutyCycle, calculatePeriod, if_pos hf] at h
  exact Option.noConfusion h

/-- Whatever the polarity, `setupTimer` leaves `TCCR1B = 0x10`. -/
theorem setupTimer_TCCR1B (hw : Timer1Bits) (s : State) (inverted : Bool) :
    (setupTimer hw s inverted).TCCR1B = 16 := by
  cases inverted <;> rfl

/-- From `TCCR1B` equal to `0x10` or `0x11`, clearing the mask bit gives `0x10` and setting
it again gives `0x11`. -/
theorem clock_stop_start (t : Nat) (ht : t = 16 ∨ t = 17) :
    toReg8 (t &&& complement16 TCCR1B_CS20) = 16 ∧
    toReg8 (toReg8 (t &&& complement16 TCCR1B_CS20) ||| TCCR1B_CS20) = 17 := by
  rcases ht with h | h <;> subst h <;> decide

/-- The engine keeps `TCCR1B` at `0x10` or `0x11` once `setupTimer` has put it there. -/
theorem EngineOp.run_TCCR1B (s s1 : State) (op : EngineOp)
    (ht : s.TCCR1B = 16 ∨ s.TCCR1B = 17) (h : op.run s = some s1) :
    s1.TCCR1B = 16 ∨ s1.TCCR1B = 17 := by
  have key : ∀ (u : State) (f d : Int), u.TCCR1B = s.TCCR1B →
      setFrequencyDutyCycle u f d = some s1 → s1.TCCR1B = 17 := by
    intro u f d hu hs
    have hf := setFrequencyDutyCycle_some_nonzero u s1 f d hs
    obtain ⟨s2, hs2, -, -, -, -, -, -, hb, -⟩ := setFrequencyDutyCycle_fields u f d hf
    rw [hs2] at hs
    have e : s2 = s1 := Option.some.inj hs
    rw [← e, hb, hu]
    exact (clock_stop_start _ ht).2
  cases op with
  | set f d => exact Or.inr (key s f d rfl h)
  | increase =>
    unfold EngineOp.run increaseDutyCycle at h
    by_cases hc : s.g_duty_cycle < 48
    · rw [if_pos hc] at h
      exact Or.inr (key _ _ _ rfl h)
    · rw [if_neg hc] at h
      rw [← Option.some.inj h]; exact ht
  | decrease =>
    unfold EngineOp.run decreaseDutyCycle at h
    by_cases hc : s.g_duty_cycle > 0
    · rw [if_pos hc] at h
      exact Or.inr (key _ _ _ rfl h)
    · rw [if_neg hc] at h
      rw [← Option.some.inj h]; exact ht

/-- The same, for a sequence of operations. -/
theorem runEngine_TCCR1B (ops : List EngineOp) (s s1 : State)
    (ht : s.TCCR1B = 16 ∨ s.TCCR1B = 17) (h : runEngine s ops = some s1) :
    s1.TCCR1B = 16 ∨ s1.TCCR1B = 17 := by
  induction ops generalizing s with
  | nil =>
    rw [runEngine] at h
    rw [← Option.some.inj h]; exact ht
  | cons op rest ih =>
    rw [runEngine] at h
    cases hop : op.run s with
    | none => rw [hop] at h; exact Option.noConfusion h
    | some s2 =>
      rw [hop] at h
      exact ih s2 (EngineOp.run_TCCR1B s s2 op ht hop) h

/-- For a nonzero frequency the six register writes are made in this order, and the state
after the last one is the result of `setFrequencyDutyCycle`. -/
theorem setFrequencyDutyCycle_writes_fields (s : State) (f d : Int) (hf : f ≠ 0) :
    ∃ w1 w2 w3 w4 w5 w6,
      setFrequencyDutyCycle_writes s f d =
        some [(Register.TCCR1B, w1), (Register.ICR1, w2), (Register.OCR1A, w3),
          (Register.OCR1B, w4), (Register.TCNT1, w5), (Register.TCCR1B, w6)] ∧
      setFrequencyDutyCycle s f d = some w6 ∧
      w1.TCCR1B = toReg8 (s.TCCR1B &&& complement16 TCCR1B_CS20) ∧
      w2.TCCR1B = w1.TCCR1B ∧ w3.TCCR1B = w1.TCCR1B ∧ w4.TCCR1B = w1.TCCR1B ∧
      w5.TCCR1B = w1.TCCR1B ∧
      w6.TCCR1B = toReg8 (w1.TCCR1B ||| TCCR1B_CS20) ∧
      w2.ICR1 = w6.ICR1 ∧ w3.OCR1A = w6.OCR1A ∧ w4.OCR1B = w6.OCR1B ∧
      w5.TCNT1 = w6.TCNT1 ∧
      w5.ICR1 = w6.ICR1 ∧ w5.OCR1A = w6.OCR1A ∧ w5.OCR1B = w6.OCR1B := by
  rw [setFrequencyDutyCycle_writes, setFrequencyDutyCycle, calculatePeriod, if_neg hf]
  exact ⟨_, _, _, _, _, _, rfl, rfl, rfl, rfl, rfl, rfl, rfl, rfl, rfl, rfl, rfl, rfl, rfl,
    rfl, rfl⟩

/-- A bit of the value stored in an 8-bit register: the bit of the value written, for the
bit numbers below 8. -/
theorem testBit_toReg8 (n i : Nat) :
    (toReg8 n).testBit i = (decide (i < 8) && n.testBit i) := by
  have h256 : (256 : Nat) = 2 ^ 8 := by norm_num
  rw [toReg8, h256, Nat.testBit_mod_two_pow]

/-- The text that `printDebugInfo` sends, as one line. -/
theorem printDebugInfo_serial (s : State) :
    (printDebugInfo s).serial =
      s.serial ++ ("Period: " ++ toString s.g_period_us ++ " us  Frequency: " ++
        toString s.g_frequency_kHz ++ " kHz  Duty Cycle: " ++ toString s.g_duty_cycle ++
        "%  Period ticks: " ++ toString s.g_period_ticks ++ "  ON ticks: " ++
        toString s.g_on_ticks ++ "\r\n") := by
  have e1 : " us" ++ "  Frequency: " = " us  Frequency: " := by decide
  have e2 : " kHz" ++ "  Duty Cycle: " = " kHz  Duty Cycle: " := by decide
  have e3 : "%" ++ "  Period ticks: " = "%  Period ticks: " := by decide
  simp only [printDebugInfo, Serial_print, Serial_println, String.append_assoc]
  rw [← String.append_assoc " us", e1, ← String.append_assoc " kHz", e2,
    ← String.append_assoc "%", e3]

/-- The function `setup` is `setupTimer(true)`, the default parameters, and one report. -/
theorem setup_eq (hw : Timer1Bits) (s : State) :
    setup hw s =
      (setFrequencyDutyCycle (setupTimer hw s true) default_frequency_kHz
        default_duty_cycle).map printDebugInfo := by
  unfold setup Serial_begin
  exact bind_report _

/-- The half-period in microseconds, `h = 1000 / f / 2`, is the truncated `500 / f`:
`f * h ≤ 500 < f * h + f`; and `f * h = 500` exactly if `f` divides 500. -/
theorem half_period_bounds (f : Int) (hf : 1 ≤ f) :
    f * (1000 / f / 2) ≤ 500 ∧ 500 < f * (1000 / f / 2) + f ∧
    (f * (1000 / f / 2) = 500 ↔ f ∣ 500) := by
  have hq1 : f * (1000 / f) ≤ 1000 := Int.mul_ediv_self_le (by omega)
  have hq2 : 1000 < f * (1000 / f) + f := Int.lt_mul_ediv_self_add (by omega)
  generalize (1000 : Int) / f = q at hq1 hq2 ⊢
  have h1 : 2 * (q / 2) ≤ q := by omega
  have h2 : q ≤ 2 * (q / 2) + 1 := by omega
  generalize q / 2 = h at h1 h2 ⊢
  have m1 : f * (2 * h) ≤ f * q := mul_le_mul_of_nonneg_left h1 (by omega)
  have m2 : f * q ≤ f * (2 * h + 1) := mul_le_mul_of_nonneg_left h2 (by omega)
  have A : f * h ≤ 500 := by linarith
  have B : 500 < f * h + f := by linarith
  refine ⟨A, B, ?_, ?_⟩
  · intro e
    exact Dvd.intro h e
  · rintro ⟨c, hc⟩
    have c1 : f * h ≤ f * c := by rw [← hc]; exact A
    have c2 : f * c < f * (h + 1) := by rw [← hc]; linarith
    have d1 : h ≤ c := le_of_mul_le_mul_left c1 (by omega)
    have d2 : c < h + 1 := lt_of_mul_lt_mul_left c2 (by omega)
    have : h = c := by omega
    rw [this, hc]

/-- The loop body performs the operation that `commandOf` names, then reports. -/
theorem loop_step_eq_command (s : State) (ch : Int) :
    loop_step s ch =
      (match commandOf s ch with
        | none => some s
        | some op => op.run s).map printDebugInfo := by
  unfold loop_step commandOf
  by_cases h0 : ch = (Char.toNat '0' : Int)
  · rw [if_pos h0, if_pos h0, bind_report]; rfl
  rw [if_neg h0, if_neg h0]
  by_cases h19 : ch ≥ (Char.toNat '1' : Int) ∧ ch ≤ (Char.toNat '9' : Int)
  · rw [if_pos h19, if_pos h19, bind_report]; rfl
  rw [if_neg h19, if_neg h19]
  by_cases hc : ch = (Char.toNat ',' : Int)
  · rw [if_pos hc, if_pos hc, bind_report]; rfl
  rw [if_neg hc, if_neg hc]
  by_cases hd : ch = (Char.toNat '.' : Int)
  · rw [if_pos hd, if_pos hd, bind_report]; rfl
  rw [if_neg hd, if_neg hd]
  by_cases hs : ch = (Char.toNat ' ' : Int)
  · rw [if_pos hs, if_pos hs]
    by_cases h48 : s.g_duty_cycle ≠ 48
    · rw [if_pos h48, if_pos h48, bind_report]; rfl
    · rw [if_neg h48, if_neg h48, bind_report]; rfl
  · rw [if_neg hs, if_neg hs, bind_report]

/-- The call passes the serial text through: with another text in the starting state the
result is the same, with that text. -/
theorem setFrequencyDutyCycle_serial (s : State) (txt : String) (f d : Int) :
    setFrequencyDutyCycle { s with serial := txt } f d =
      (setFrequencyDutyCycle s f d).map (fun u => { u with serial := txt }) := by
  by_cases hf : f = 0
  · rw [setFrequencyDutyCycle, setFrequencyDutyCycle, calculatePeriod, if_pos hf]; rfl
  · rw [setFrequencyDutyCycle, setFrequencyDutyCycle, calculatePeriod, if_neg hf]; rfl

/-- A state that a call returned is a fixed point of the call with the parameters it
stores. -/
theorem setFrequencyDutyCycle_fixed (s s1 : State) (f d : Int)
    (h : setFrequencyDutyCycle s f d = some s1) :
    s1.g_frequency_kHz = f ∧ s1.g_duty_cycle = d ∧
    setFrequencyDutyCycle s1 s1.g_frequency_kHz s1.g_duty_cycle = some s1 := by
  have hf0 := setFrequencyDutyCycle_some_nonzero s s1 f d h
  obtain ⟨u, hu, a1, a2, a3, a4, a5, a6, a7, a8, a9, a10, a11, a12⟩ :=
    setFrequencyDutyCycle_fields s f d hf0
  have eu : u = s1 := Option.some.inj (hu.symm.trans h)
  subst eu
  obtain ⟨s2, hs2, b1, b2, b3, b4, b5, b6, b7, b8, b9, b10, b11, b12⟩ :=
    setFrequencyDutyCycle_fields u f d hf0
  refine ⟨a1, a2, ?_⟩
  rw [a1, a2, hs2]
  have e3 : s2.g_period_us = u.g_period_us := by rw [b3, a3]
  have e4 : s2.g_period_ticks = u.g_period_ticks := by rw [b4, a4, e3]
  have e5 : s2.g_on_ticks = u.g_on_ticks := by rw [b5, a5, e4]
  have e9 : s2.OCR1A = u.OCR1A := by rw [b9, a9, e5]
  congr 1
  apply State.ext
  · rw [b1, a1]
  · exact e3
  · rw [b2, a2]
  · exact e4
  · exact e5
  · exact b6
  · rw [b7, a7]; exact clock_restart_idem _
  · rw [b8, a8, e4]
  · exact e9
  · rw [b10, a10, e4, e5]
  · rw [b11, a11, e9]
  · exact b12

/-- A fixed point of the call has consistent derived values. -/
theorem DerivedConsistent_of_fixed (s : State)
    (h : setFrequencyDutyCycle s s.g_frequency_kHz s.g_duty_cycle = some s) :
    DerivedConsistent s :=
  ⟨s, h, rfl, rfl, rfl, rfl, rfl, rfl⟩

/-- Reporting keeps a fixed point of the call a fixed point. -/
theorem printDebugInfo_fixed (s : State)
    (h : setFrequencyDutyCycle s s.g_frequency_kHz s.g_duty_cycle = some s) :
    setFrequencyDutyCycle (printDebugInfo s) (printDebugInfo s).g_frequency_kHz
      (printDebugInfo s).g_duty_cycle = some (printDebugInfo s) := by
  obtain ⟨p1, -, p3, -⟩ := printDebugInfo_fields s
  have hfr := printDebugInfo_frame s
  rw [p1, p3]
  generalize printDebugInfo s = p at hfr ⊢
  rw [hfr, setFrequencyDutyCycle_serial, h, Option.map_some']

/-- A call with a frequency of at least 1 returns a settled state. -/
theorem setFrequencyDutyCycle_settled (s : State) (f d : Int) (hf : 1 ≤ f) :
    ∃ s1, setFrequencyDutyCycle s f d = some s1 ∧ Settled s1 ∧
      s1.g_frequency_kHz = f ∧ s1.g_duty_cycle = d := by
  obtain ⟨s1, hs, -⟩ := setFrequencyDutyCycle_fields s f d (by omega)
  obtain ⟨e1, e2, e3⟩ := setFrequencyDutyCycle_fixed s s1 f d hs
  exact ⟨s1, hs, ⟨by rw [e1]; exact hf, e3⟩, e1, e2⟩

/-- Reporting keeps a settled state settled. -/
theorem printDebugInfo_settled (s : State) (h : Settled s) : Settled (printDebugInfo s) := by
  obtain ⟨p1, -⟩ := printDebugInfo_fields s
  exact ⟨by rw [p1]; exact h.1, printDebugInfo_fixed s h.2⟩

/-- A settled state has consistent derived values. -/
theorem Settled.consistent (s : State) (h : Settled s) : DerivedConsistent s :=
  DerivedConsistent_of_fixed s h.2

/-- An engine operation within the contract, in a state whose stored frequency is at least
1, returns; the state it returns is the state it was given or a settled one, and its stored
frequency is at least 1. -/
theorem EngineOp.run_settled (s : State) (op : EngineOp) (hs : 1 ≤ s.g_frequency_kHz)
    (hok : op.frequencyOk = true) :
    ∃ s1, op.run s = some s1 ∧ (s1 = s ∨ Settled s1) ∧ 1 ≤ s1.g_frequency_kHz := by
  cases op with
  | set f d =>
    have hf : 1 ≤ f := of_decide_eq_true hok
    obtain ⟨s1, h1, h2, -⟩ := setFrequencyDutyCycle_settled s f d hf
    exact ⟨s1, h1, Or.inr h2, h2.1⟩
  | increase =>
    unfold EngineOp.run increaseDutyCycle
    by_cases hc : s.g_duty_cycle < 48
    · rw [if_pos hc]
      obtain ⟨s1, h1, h2, -⟩ :=
        setFrequencyDutyCycle_settled { s with g_duty_cycle := s.g_duty_cycle + 1 }
          s.g_frequency_kHz (s.g_duty_cycle + 1) hs
      exact ⟨s1, h1, Or.inr h2, h2.1⟩
    · rw [if_neg hc]
      exact ⟨s, rfl, Or.inl rfl, hs⟩
  | decrease =>
    unfold EngineOp.run decreaseDutyCycle
    by_cases hc : s.g_duty_cycle > 0
    · rw [if_pos hc]
      obtain ⟨s1, h1, h2, -⟩ :=
        setFrequencyDutyCycle_settled { s with g_duty_cycle := s.g_duty_cycle - 1 }
          s.g_frequency_kHz (s.g_duty_cycle - 1) hs
      exact ⟨s1, h1, Or.inr h2, h2.1⟩
    · rw [if_neg hc]
      exact ⟨s, rfl, Or.inl rfl, hs⟩

/-- A sequence of engine operations within the contract, from a settled state, returns a
settled state. -/
theorem runEngine_settled (ops : List EngineOp) (s : State) (hs : Settled s)
    (hok : ops.all EngineOp.frequencyOk = true) :
    ∃ s1, runEngine s ops = some s1 ∧ Settled s1 := by
  induction ops generalizing s with
  | nil => exact ⟨s, rfl, hs⟩
  | cons op rest ih =>
    rw [List.all_cons, Bool.and_eq_true] at hok
    obtain ⟨s1, h1, h2, -⟩ := EngineOp.run_settled s op hs.1 hok.1
    have hs1 : Settled s1 := by
      rcases h2 with e | h
      · rw [e]; exact hs
      · exact h
    obtain ⟨s2, h3, h4⟩ := ih s1 hs1 hok.2
    refine ⟨s2, ?_, h4⟩
    rw [runEngine, h1]
    exact h3

/-- In the operating range the parameters set give a state in the operating range: each of
the ten frequencies gives a period of 80 to 800 ticks. -/
theorem setFrequencyDutyCycle_in_operating_range (s : State) (f d : Int)
    (hf : f ∈ ([10, 20, 30, 40, 50, 60, 70, 80, 90, 100] : List Int))
    (hd0 : 0 ≤ d) (hd1 : d ≤ 48) :
    ∃ s1, setFrequencyDutyCycle s f d = some s1 ∧ Settled s1 ∧ InOperatingRange s1 := by
  have hf1 : 1 ≤ f := by
    simp only [List.mem_cons, List.mem_singleton, List.not_mem_nil, or_false] at hf
    omega
  obtain ⟨s1, hs, hset, e1, e2⟩ := setFrequencyDutyCycle_settled s f d hf1
  obtain ⟨u, hu, -, -, hus, hpt, -⟩ := setFrequencyDutyCycle_fields s f d (by omega)
  have eu : u = s1 := Option.some.inj (hu.symm.trans hs)
  subst eu
  rw [hus] at hpt
  refine ⟨u, hs, hset, by rw [e1]; exact hf, by rw [e2]; exact hd0, by rw [e2]; exact hd1, ?_⟩
  rw [hpt]
  simp only [List.mem_cons, List.mem_singleton, List.not_mem_nil, or_false] at hf
  rcases hf with h | h | h | h | h | h | h | h | h | h <;> rw [h] <;> decide

/-- The operations that the command loop performs in the operating range. -/
theorem commandOf_cases (s : State) (ch : Int) (hs : InOperatingRange s) :
    commandOf s ch = none ∨ commandOf s ch = some EngineOp.increase ∨
    commandOf s ch = some EngineOp.decrease ∨
    ∃ f d, commandOf s ch = some (EngineOp.set f d) ∧
      f ∈ ([10, 20, 30, 40, 50, 60, 70, 80, 90, 100] : List Int) ∧ 0 ≤ d ∧ d ≤ 48 := by
  have c48 : (Char.toNat '0' : Int) = 48 := by decide
  have c49 : (Char.toNat '1' : Int) = 49 := by decide
  have c57 : (Char.toNat '9' : Int) = 57 := by decide
  unfold commandOf
  by_cases h0 : ch = (Char.toNat '0' : Int)
  · rw [if_pos h0]
    exact Or.inr (Or.inr (Or.inr ⟨100, default_duty_cycle, rfl, by decide, by decide,
      by decide⟩))
  rw [if_neg h0]
  by_cases h19 : ch ≥ (Char.toNat '1' : Int) ∧ ch ≤ (Char.toNat '9' : Int)
  · rw [if_pos h19]
    refine Or.inr (Or.inr (Or.inr ⟨_, default_duty_cycle, rfl, ?_, by decide, by decide⟩))
    simp only [List.mem_cons, List.mem_singleton, List.not_mem_nil, or_false]
    omega
  rw [if_neg h19]
  by_cases hc : ch = (Char.toNat ',' : Int)
  · rw [if_pos hc]; exact Or.inr (Or.inr (Or.inl rfl))
  rw [if_neg hc]
  by_cases hd : ch = (Char.toNat '.' : Int)
  · rw [if_pos hd]; exact Or.inr (Or.inl rfl)
  rw [if_neg hd]
  by_cases hsp : ch = (Char.toNat ' ' : Int)
  · rw [if_pos hsp]
    by_cases h48 : s.g_duty_cycle ≠ 48
    · rw [if_pos h48]
      exact Or.inr (Or.inr (Or.inr ⟨_, 48, rfl, hs.1, by decide, by decide⟩))
    · rw [if_neg h48]
      exact Or.inr (Or.inr (Or.inr ⟨_, 10, rfl, hs.1, by decide, by decide⟩))
  · rw [if_neg hsp]; exact Or.inl rfl

/-- One pass of the loop body keeps the state settled and in the operating range, and it
returns. -/
theorem loop_step_invariant (s : State) (ch : Int) (hs : Settled s ∧ InOperatingRange s) :
    ∃ s1, loop_step s ch = some s1 ∧ Settled s1 ∧ InOperatingRange s1 := by
  obtain ⟨hset, hr⟩ := hs
  have report : ∀ u, Settled u ∧ InOperatingRange u →
      Settled (printDebugInfo u) ∧ InOperatingRange (printDebugInfo u) := by
    intro u hu
    obtain ⟨p1, -, p3, p4, -⟩ := printDebugInfo_fields u
    refine ⟨printDebugInfo_settled u hu.1, ?_⟩
    unfold InOperatingRange
    rw [p1, p3, p4]
    exact hu.2
  have key : ∃ u, (match commandOf s ch with
        | none => some s
        | some op => op.run s) = some u ∧ Settled u ∧ InOperatingRange u := by
    have hfr := hr.1
    have hd0 := hr.2.1
    have hd1 := hr.2.2.1
    rcases commandOf_cases s ch hr with h | h | h | ⟨f, d, h, hf, hx0, hx1⟩
    · rw [h]; exact ⟨s, rfl, hset, hr⟩
    · rw [h]
      show ∃ u, increaseDutyCycle s = some u ∧ _
      unfold increaseDutyCycle
      by_cases hc : s.g_duty_cycle < 48
      · rw [if_pos hc]
        exact setFrequencyDutyCycle_in_operating_range
          { s with g_duty_cycle := s.g_duty_cycle + 1 } s.g_frequency_kHz
          (s.g_duty_cycle + 1) hfr (by omega) (by omega)
      · rw [if_neg hc]; exact ⟨s, rfl, hset, hr⟩
    · rw [h]
      show ∃ u, decreaseDutyCycle s = some u ∧ _
      unfold decreaseDutyCycle
      by_cases hc : s.g_duty_cycle > 0
      · rw [if_pos hc]
        exact setFrequencyDutyCycle_in_operating_range
          { s with g_duty_cycle := s.g_duty_cycle - 1 } s.g_frequency_kHz
          (s.g_duty_cycle - 1) hfr (by omega) (by omega)
      · rw [if_neg hc]; exact ⟨s, rfl, hset, hr⟩
    · rw [h]
      exact setFrequencyDutyCycle_in_operating_range s f d hf hx0 hx1
  obtain ⟨u, hu, hu2⟩ := key
  refine ⟨printDebugInfo u, ?_, report u hu2⟩
  rw [loop_step_eq_command, hu, Option.map_some']

/-- The command loop, on any bytes, from a settled state in the operating range, returns
such a state. -/
theorem loop_invariant (bytes : List Int) (s : State)
    (hs : Settled s ∧ InOperatingRange s) :
    ∃ s1, loop s bytes = some s1 ∧ Settled s1 ∧ InOperatingRange s1 := by
  induction bytes generalizing s with
  | nil => exact ⟨s, rfl, hs⟩
  | cons ch rest ih =>
    obtain ⟨s1, h1, h2⟩ := loop_step_invariant s ch hs
    obtain ⟨s2, h3, h4⟩ := ih s1 h2
    refine ⟨s2, ?_, h4⟩
    rw [loop, h1]
    exact h3

/-- The function `setup` returns a settled state in the operating range. -/
theorem setup_invariant (hw : Timer1Bits) (s0 : State) :
    ∃ s1, setup hw s0 = some s1 ∧ Settled s1 ∧ InOperatingRange s1 := by
  obtain ⟨u, hu, hset, hr⟩ :=
    setFrequencyDutyCycle_in_operating_range (setupTimer hw s0 true) default_frequency_kHz
      default_duty_cycle (by decide) (by decide) (by decide)
  obtain ⟨p1, -, p3, p4, -⟩ := printDebugInfo_fields u
  refine ⟨printDebugInfo u, ?_, printDebugInfo_settled u hset, ?_⟩
  · rw [setup_eq, hu, Option.map_some']
  · unfold InOperatingRange
    rw [p1, p3, p4]
    exact hr

/-- The example sequence of operations leads to the example state. -/
theorem state_10kHz_21pct_reached :
    runEngine (setupTimer atmega328p state_at_startup true)
      [EngineOp.set 10 20, EngineOp.increase] = some state_10kHz_21pct := by
  decide

/-! ## Claims, continued -/

/-- C11: in `setFrequencyDutyCycle` the counter is stopped for the whole register update. In
every state reached from `setupTimer` (either polarity, any prior state) by a sequence of
engine operations, a call with a frequency of at least 1 makes six register writes, to
`TCCR1B`, `ICR1`, `OCR1A`, `OCR1B`, `TCNT1`, `TCCR1B`: after the first the clock-select bits
of `TCCR1B` are all zero, they are zero after each of the four value writes, and only the
last write sets the clock-select field to 1, when the four registers already hold their
final values. -/
theorem C11_counter_stopped_during_update (hw : Timer1Bits) (s0 : State) (inverted : Bool)
    (ops : List EngineOp) (s : State) (f d : Int)
    (hreach : runEngine (setupTimer hw s0 inverted) ops = some s) (hf : 1 ≤ f) :
    ∃ w1 w2 w3 w4 w5 w6,
      setFrequencyDutyCycle_writes s f d =
        some [(Register.TCCR1B, w1), (Register.ICR1, w2), (Register.OCR1A, w3),
          (Register.OCR1B, w4), (Register.TCNT1, w5), (Register.TCCR1B, w6)] ∧
      setFrequencyDutyCycle s f d = some w6 ∧
      clockSelect w1 = 0 ∧
      clockSelect w2 = 0 ∧ clockSelect w3 = 0 ∧ clockSelect w4 = 0 ∧ clockSelect w5 = 0 ∧
      clockSelect w6 = 1 ∧
      w2.ICR1 = w6.ICR1 ∧ w3.OCR1A = w6.OCR1A ∧ w4.OCR1B = w6.OCR1B ∧
      w5.TCNT1 = w6.TCNT1 ∧
      w5.ICR1 = w6.ICR1 ∧ w5.OCR1A = w6.OCR1A ∧ w5.OCR1B = w6.OCR1B := by
  have ht : s.TCCR1B = 16 ∨ s.TCCR1B = 17 :=
    runEngine_TCCR1B ops _ s (Or.inl (setupTimer_TCCR1B hw s0 inverted)) hreach
  obtain ⟨w1, w2, w3, w4, w5, w6, hwr, hs, b1, b2, b3, b4, b5, b6, r1, r2, r3, r4, r5, r6,
    r7⟩ := setFrequencyDutyCycle_writes_fields s f d (by omega)
  obtain ⟨c1, c2⟩ := clock_stop_start _ ht
  have e1 : w1.TCCR1B = 16 := by rw [b1]; exact c1
  have e6 : w6.TCCR1B = 17 := by rw [b6, b1]; exact c2
  refine ⟨w1, w2, w3, w4, w5, w6, hwr, hs, ?_, ?_, ?_, ?_, ?_, ?_, r1, r2, r3, r4, r5, r6, r7⟩
  · rw [clockSelect, e1]
  · rw [clockSelect, b2, e1]
  · rw [clockSelect, b3, e1]
  · rw [clockSelect, b4, e1]
  · rw [clockSelect, b5, e1]
  · rw [clockSelect, e6]

/-- C11, for a call at 30 kHz and 48 % in the state reached on the ATmega328P by
`setupTimer(true)`, `setFrequencyDutyCycle(10, 20)` and `increaseDutyCycle()`. -/
theorem C11_counter_stopped_during_update_witness :
    ∃ w1 w2 w3 w4 w5 w6,
      setFrequencyDutyCycle_writes state_10kHz_21pct 30 48 =
        some [(Register.TCCR1B, w1), (Register.ICR1, w2), (Register.OCR1A, w3),
          (Register.OCR1B, w4), (Register.TCNT1, w5), (Register.TCCR1B, w6)] ∧
      setFrequencyDutyCycle state_10kHz_21pct 30 48 = some w6 ∧
      clockSelect w1 = 0 ∧
      clockSelect w2 = 0 ∧ clockSelect w3 = 0 ∧ clockSelect w4 = 0 ∧ clockSelect w5 = 0 ∧
      clockSelect w6 = 1 ∧
      w2.ICR1 = w6.ICR1 ∧ w3.OCR1A = w6.OCR1A ∧ w4.OCR1B = w6.OCR1B ∧
      w5.TCNT1 = w6.TCNT1 ∧
      w5.ICR1 = w6.ICR1 ∧ w5.OCR1A = w6.OCR1A ∧ w5.OCR1B = w6.OCR1B :=
  C11_counter_stopped_during_update atmega328p state_at_startup true
    [EngineOp.set 10 20, EngineOp.increase] state_10kHz_21pct 30 48 (by decide) (by decide)

/-- C12 as stated fails at duty cycle 0: `setFrequencyDutyCycle(10, 0)` leaves `OCR1A = 0`
and `TCNT1 = 65535` (the 16-bit `OCR1A - 1` wraps), so `TCNT1 + 1` is 65536, not `OCR1A`,
and the pre-loaded value exceeds `ICR1 = 800`. -/
theorem C12_preload_wraps_at_duty_zero :
    ((1 : Int) ≤ 10 ∧ (0 : Int) ≤ 0 ∧ (0 : Int) ≤ 100) ∧
    setFrequencyDutyCycle State.zero 10 0 = some state_10kHz_0pct ∧
    state_10kHz_0pct.OCR1A = 0 ∧ state_10kHz_0pct.TCNT1 = 65535 ∧
    state_10kHz_0pct.ICR1 = 800 ∧
    state_10kHz_0pct.TCNT1 + 1 ≠ state_10kHz_0pct.OCR1A ∧
    ¬ state_10kHz_0pct.TCNT1 ≤ state_10kHz_0pct.ICR1 := by
  decide

/-- C12, amended: for every frequency of at least 1 kHz and every duty cycle in 0..100,
after `setFrequencyDutyCycle` the counter holds `OCR1A - 1` in 16-bit arithmetic, that is
`(TCNT1 + 1) mod 65536 = OCR1A`; and whenever `g_on_ticks` is at least 1, `TCNT1 + 1 = OCR1A`
as natural numbers and the pre-loaded value is below `ICR1`. -/
theorem C12_counter_preload (s : State) (f d : Int) (hf : 1 ≤ f) (hd0 : 0 ≤ d)
    (hd1 : d ≤ 100) :
    ∃ s1, setFrequencyDutyCycle s f d = some s1 ∧
      (s1.TCNT1 + 1) % 65536 = s1.OCR1A ∧
      (1 ≤ s1.g_on_ticks → s1.TCNT1 + 1 = s1.OCR1A ∧ s1.TCNT1 < s1.ICR1) := by
  obtain ⟨s1, hs, -, -, -, -, hT, -, hle, hicr, hoa, -⟩ :=
    setFrequencyDutyCycle_in_range s f d hf hd0 hd1
  obtain ⟨s2, hs2, -, -, -, -, -, -, -, -, -, -, htc, -⟩ :=
    setFrequencyDutyCycle_fields s f d (by omega)
  rw [hs] at hs2
  have e : s1 = s2 := Option.some.inj hs2
  rw [← e] at htc
  rw [toReg16] at htc
  refine ⟨s1, hs, ?_, ?_⟩
  · rw [htc, hoa]; omega
  · intro h1
    rw [htc, hicr, hoa]
    constructor <;> omega

/-- C12 amended, at 10 kHz and 48 %, where `g_on_ticks` is 384. -/
theorem C12_counter_preload_witness :
    ∃ s1, setFrequencyDutyCycle State.zero 10 48 = some s1 ∧
      (s1.TCNT1 + 1) % 65536 = s1.OCR1A ∧
      s1.TCNT1 + 1 = s1.OCR1A ∧ s1.TCNT1 < s1.ICR1 := by
  obtain ⟨s1, hs, hm, hex⟩ :=
    C12_counter_preload State.zero 10 48 (by decide) (by decide) (by decide)
  have e : s1 = state_10kHz_48pct :=
    Option.some.inj (hs.symm.trans named_states_reached.2.1)
  have hon : 1 ≤ s1.g_on_ticks := by rw [e]; decide
  exact ⟨s1, hs, hm, hex hon⟩

/-- C13: for every frequency of at least 1 kHz, whatever the duty cycle, `g_period_ticks`
is at most 8000, below 65536, and `ICR1` holds it without truncation; and for a duty cycle
in 0..100 the product `g_period_ticks * duty_cycle` is below `2^32`, so the 32-bit unsigned
multiplication does not wrap. -/
theorem C13_period_fits_registers (s : State) (f d : Int) (hf : 1 ≤ f) :
    ∃ s1, setFrequencyDutyCycle s f d = some s1 ∧
      s1.g_period_ticks ≤ 8000 ∧ s1.g_period_ticks < 65536 ∧
      s1.ICR1 = s1.g_period_ticks ∧
      (0 ≤ d → d ≤ 100 →
        s1.g_period_ticks * toULong d < 4294967296 ∧
        wrapULong (s1.g_period_ticks * toULong d) = s1.g_period_ticks * d.toNat) := by
  obtain ⟨s1, hs, -, -, hus, hpt, -, -, -, hicr, -⟩ :=
    setFrequencyDutyCycle_fields s f d (by omega)
  obtain ⟨-, -, -, -, e4⟩ := period_bounds f hf
  rw [hus] at hpt
  have hT : s1.g_period_ticks ≤ 8000 := by rw [hpt]; exact e4
  refine ⟨s1, hs, hT, by omega, ?_, ?_⟩
  · rw [hicr, toReg16]; omega
  · intro hd0 hd1
    have hd : toULong d = d.toNat := by
      simp only [toULong]
      omega
    have hD : d.toNat ≤ 100 := by omega
    have hmul : s1.g_period_ticks * d.toNat ≤ 800000 := by
      calc s1.g_period_ticks * d.toNat ≤ 8000 * 100 := Nat.mul_le_mul hT hD
        _ = 800000 := by norm_num
    rw [hd, wrapULong]
    exact ⟨by omega, Nat.mod_eq_of_lt (by omega)⟩

/-- C13, at 1 kHz and 100 %, where the period and the product are largest. -/
theorem C13_period_fits_registers_witness :
    ∃ s1, setFrequencyDutyCycle State.zero 1 100 = some s1 ∧
      s1.g_period_ticks ≤ 8000 ∧ s1.g_period_ticks < 65536 ∧
      s1.ICR1 = s1.g_period_ticks ∧
      s1.g_period_ticks * toULong 100 < 4294967296 ∧
      wrapULong (s1.g_period_ticks * toULong 100) = s1.g_period_ticks * (100 : Int).toNat := by
  obtain ⟨s1, hs, h1, h2, h3, h4⟩ :=
    C13_period_fits_registers State.zero 1 100 (by decide)
  exact ⟨s1, hs, h1, h2, h3, h4 (by decide) (by decide)⟩

/-- C14: for both values of the flag, `setupTimer` gives the two channels opposite polarity.
With the four compare-output-mode bits at distinct positions of the 8-bit `TCCR1A`, after
`setupTimer(inverted)` both `COM1A1` and `COM1B1` are set, `COM1A0` is set exactly if
`inverted` is true, `COM1B0` exactly if it is false, so exactly one of the two is set; and
the other value of the flag swaps them. -/
theorem C14_opposite_polarity (hw : Timer1Bits) (s : State) (inverted : Bool)
    (h8 : hw.COM1A1 < 8 ∧ hw.COM1A0 < 8 ∧ hw.COM1B1 < 8 ∧ hw.COM1B0 < 8)
    (hne : hw.COM1A1 ≠ hw.COM1A0 ∧ hw.COM1A1 ≠ hw.COM1B1 ∧ hw.COM1A1 ≠ hw.COM1B0 ∧
      hw.COM1A0 ≠ hw.COM1B1 ∧ hw.COM1A0 ≠ hw.COM1B0 ∧ hw.COM1B1 ≠ hw.COM1B0) :
    (setupTimer hw s inverted).TCCR1A.testBit hw.COM1A1 = true ∧
    (setupTimer hw s inverted).TCCR1A.testBit hw.COM1B1 = true ∧
    (setupTimer hw s inverted).TCCR1A.testBit hw.COM1A0 = inverted ∧
    (setupTimer hw s inverted).TCCR1A.testBit hw.COM1B0 = !inverted ∧
    (setupTimer hw s inverted).TCCR1A.testBit hw.COM1A0 ≠
      (setupTimer hw s inverted).TCCR1A.testBit hw.COM1B0 ∧
    (setupTimer hw s (!inverted)).TCCR1A.testBit hw.COM1A0 =
      (setupTimer hw s inverted).TCCR1A.testBit hw.COM1B0 ∧
    (setupTimer hw s (!inverted)).TCCR1A.testBit hw.COM1B0 =
      (setupTimer hw s inverted).TCCR1A.testBit hw.COM1A0 := by
  obtain ⟨a1, a0, b1, b0⟩ := h8
  obtain ⟨n1, n2, n3, n4, n5, n6⟩ := hne
  have ht : (setupTimer hw s true).TCCR1A =
      toReg8 ((1 <<< hw.COM1A1) ||| (1 <<< hw.COM1A0) ||| (1 <<< hw.COM1B1)
        ||| (0 <<< hw.COM1B0)) := rfl
  have hf : (setupTimer hw s false).TCCR1A =
      toReg8 ((1 <<< hw.COM1A1) ||| (0 <<< hw.COM1A0) ||| (1 <<< hw.COM1B1)
        ||| (1 <<< hw.COM1B0)) := rfl
  have bit : ∀ k i : Nat, (1 <<< k).testBit i = decide (k = i) := by
    intro k i
    rw [Nat.one_shiftLeft, Nat.testBit_two_pow]
  cases inverted <;>
    simp only [ht, hf, testBit_toReg8, Nat.testBit_lor, bit, Nat.zero_shiftLeft,
      Nat.zero_testBit, Bool.not_true, Bool.not_false] <;>
    simp [a1, a0, b1, b0, n1, n2, n3, n4, n5, n6, Ne.symm n1, Ne.symm n2, Ne.symm n3,
      Ne.symm n4, Ne.symm n5, Ne.symm n6]

/-- C14, on the ATmega328P with the flag true, as `setup` passes it. -/
theorem C14_opposite_polarity_witness :
    (setupTimer atmega328p state_at_startup true).TCCR1A.testBit atmega328p.COM1A1 = true ∧
    (setupTimer atmega328p state_at_startup true).TCCR1A.testBit atmega328p.COM1B1 = true ∧
    (setupTimer atmega328p state_at_startup true).TCCR1A.testBit atmega328p.COM1A0 = true ∧
    (setupTimer atmega328p state_at_startup true).TCCR1A.testBit atmega328p.COM1B0 = !true ∧
    (setupTimer atmega328p state_at_startup true).TCCR1A.testBit atmega328p.COM1A0 ≠
      (setupTimer atmega328p state_at_startup true).TCCR1A.testBit atmega328p.COM1B0 ∧
    (setupTimer atmega328p state_at_startup (!true)).TCCR1A.testBit atmega328p.COM1A0 =
      (setupTimer atmega328p state_at_startup true).TCCR1A.testBit atmega328p.COM1B0 ∧
    (setupTimer atmega328p state_at_startup (!true)).TCCR1A.testBit atmega328p.COM1B0 =
      (setupTimer atmega328p state_at_startup true).TCCR1A.testBit atmega328p.COM1A0 :=
  C14_opposite_polarity atmega328p state_at_startup true (by decide) (by decide)

/-- C15: `setupTimer` leaves the clock stopped. For both values of the flag and every prior
state, on return `TCCR1B = 0x10`: the three clock-select bits are zero and bit 4, the upper
waveform-mode bit that the sketch sets, is the only bit set. A following
`setFrequencyDutyCycle` with a frequency of at least 1 starts the clock: the clock-select
field is then 1, prescale 1. -/
theorem C15_setupTimer_leaves_clock_stopped (hw : Timer1Bits) (s : State) (inverted : Bool)
    (f d : Int) (hf : 1 ≤ f) :
    (setupTimer hw s inverted).TCCR1B = 0x10 ∧
    clockSelect (setupTimer hw s inverted) = 0 ∧
    (∀ i, (setupTimer hw s inverted).TCCR1B.testBit i = decide (i = 4)) ∧
    ∃ s1, setFrequencyDutyCycle (setupTimer hw s inverted) f d = some s1 ∧
      clockSelect s1 = 1 ∧ s1.TCCR1B = 0x11 := by
  have h16 := setupTimer_TCCR1B hw s inverted
  obtain ⟨s1, hs, -, -, -, -, -, -, hb, -⟩ :=
    setFrequencyDutyCycle_fields (setupTimer hw s inverted) f d (by omega)
  have e17 : s1.TCCR1B = 17 := by
    rw [hb]
    exact (clock_stop_start _ (Or.inl h16)).2
  refine ⟨h16, by rw [clockSelect, h16], ?_, s1, hs, by rw [clockSelect, e17], e17⟩
  intro i
  rw [h16]
  have h : (16 : Nat) = 2 ^ 4 := by norm_num
  rw [h, Nat.testBit_two_pow]
  by_cases hi : i = 4
  · subst hi; rfl
  · simp [hi, Ne.symm hi]

/-- C15, on the ATmega328P with the flag true, followed by the default parameters. -/
theorem C15_setupTimer_leaves_clock_stopped_witness :
    (setupTimer atmega328p state_at_startup true).TCCR1B = 0x10 ∧
    clockSelect (setupTimer atmega328p state_at_startup true) = 0 ∧
    (∀ i, (setupTimer atmega328p state_at_startup true).TCCR1B.testBit i = decide (i = 4)) ∧
    ∃ s1, setFrequencyDutyCycle (setupTimer atmega328p state_at_startup true) 10 20 = some s1 ∧
      clockSelect s1 = 1 ∧ s1.TCCR1B = 0x11 :=
  C15_setupTimer_leaves_clock_stopped atmega328p state_at_startup true 10 20 (by decide)

/-- C16: after `setup`, from any prior state, the timer has the polarity of
`setupTimer(true)` (on the ATmega328P `TCCR1A = 0xE0`), the default parameters are applied:
`g_frequency_kHz = 10`, `g_duty_cycle = 20`, `g_period_us = 100`, `g_period_ticks = 800`,
`g_on_ticks = 160`, `ICR1 = 800`, `OCR1A = 160`, `OCR1B = 640`; the clock runs (clock-select
field 1), and the serial output has grown by exactly one status line. -/
theorem C16_startup_state (hw : Timer1Bits) (s0 : State) :
    (∃ s1, setup hw s0 = some s1 ∧
      s1.TCCR1A = (setupTimer hw s0 true).TCCR1A ∧
      s1.TCCR1A = toReg8 ((1 <<< hw.COM1A1) ||| (1 <<< hw.COM1A0) ||| (1 <<< hw.COM1B1)
        ||| (0 <<< hw.COM1B0)) ∧
      s1.g_frequency_kHz = 10 ∧ s1.g_duty_cycle = 20 ∧ s1.g_period_us = 100 ∧
      s1.g_period_ticks = 800 ∧ s1.g_on_ticks = 160 ∧
      s1.ICR1 = 800 ∧ s1.OCR1A = 160 ∧ s1.OCR1B = 640 ∧
      clockSelect s1 = 1 ∧
      s1.serial = s0.serial ++
        "Period: 100 us  Frequency: 10 kHz  Duty Cycle: 20%  Period ticks: 800  ON ticks: 160\r\n") ∧
    (setup atmega328p state_at_startup).map State.TCCR1A = some 0xE0 := by
  constructor
  · obtain ⟨u, hu, hfr, hdc, hus, hpt, hon, hta, htb, hicr, hoa, hob, -, hser⟩ :=
      setFrequencyDutyCycle_fields (setupTimer hw s0 true) default_frequency_kHz
        default_duty_cycle (by decide)
    obtain ⟨p1, p2, p3, p4, p5, p6, p7, p8, p9, p10, -⟩ := printDebugInfo_fields u
    have e1 : u.g_period_us = 100 := by rw [hus]; decide
    have e2 : u.g_period_ticks = 800 := by rw [hpt, e1]; decide
    have e3 : u.g_on_ticks = 160 := by rw [hon, e2]; decide
    have e4 : u.ICR1 = 800 := by rw [hicr, e2]; decide
    have e5 : u.OCR1A = 160 := by rw [hoa, e3]; decide
    have e6 : u.OCR1B = 640 := by rw [hob, e2, e3]; decide
    have e7 : u.TCCR1B = 17 := by
      rw [htb]
      exact (clock_stop_start _ (Or.inl (setupTimer_TCCR1B hw s0 true))).2
    have e8 : u.g_frequency_kHz = 10 := hfr
    have e9 : u.g_duty_cycle = 20 := hdc
    have e10 : u.serial = s0.serial := by rw [hser]; rfl
    refine ⟨printDebugInfo u, ?_, ?_, ?_, ?_, ?_, ?_, ?_, ?_, ?_, ?_, ?_, ?_, ?_⟩
    · rw [setup_eq, hu, Option.map_some']
    · rw [p6, hta]
    · rw [p6, hta]; rfl
    · rw [p1, e8]
    · rw [p3, e9]
    · rw [p2, e1]
    · rw [p4, e2]
    · rw [p5, e3]
    · rw [p8, e4]
    · rw [p9, e5]
    · rw [p10, e6]
    · rw [clockSelect, p7, e7]
    · rw [printDebugInfo_serial, e1, e2, e3, e8, e9, e10]
      congr 1
  · decide

/-- C17: the status line. For every state `printDebugInfo` appends to the serial output
exactly `Period: <g_period_us> us  Frequency: <g_frequency_kHz> kHz  Duty Cycle:
<g_duty_cycle>%  Period ticks: <g_period_ticks>  ON ticks: <g_on_ticks>` and the line
terminator, the values in decimal (as in the example at 10 kHz and 48 %), and it changes no
global and no register. -/
theorem C17_status_line (s : State) :
    (printDebugInfo s).serial =
      s.serial ++ ("Period: " ++ toString s.g_period_us ++ " us  Frequency: " ++
        toString s.g_frequency_kHz ++ " kHz  Duty Cycle: " ++ toString s.g_duty_cycle ++
        "%  Period ticks: " ++ toString s.g_period_ticks ++ "  ON ticks: " ++
        toString s.g_on_ticks ++ "\r\n") ∧
    printDebugInfo s = { s with serial := (printDebugInfo s).serial } ∧
    (printDebugInfo state_10kHz_48pct).serial =
      "Period: 100 us  Frequency: 10 kHz  Duty Cycle: 48%  Period ticks: 800  ON ticks: 384\r\n" :=
  ⟨printDebugInfo_serial s, printDebugInfo_frame s, by decide⟩

/-- C18: the derived values are consistent in every reachable state. After `setup` (any
device bit numbers, any prior state) and any sequence of command bytes, and likewise after
`setup` and any sequence of `setFrequencyDutyCycle` calls with a frequency of at least 1,
`increaseDutyCycle` and `decreaseDutyCycle` calls, the run returns and `g_period_us`,
`g_period_ticks`, `g_on_ticks`, `ICR1`, `OCR1A`, `OCR1B` are the values that
`setFrequencyDutyCycle` computes from the stored `g_frequency_kHz` and `g_duty_cycle`. And
each such operation, in a state `s` whose stored frequency is at least 1, either returns the
state unchanged or returns a state with all of them recomputed. -/
theorem C18_derived_state_consistent (hw : Timer1Bits) (s0 : State) (bytes : List Int)
    (ops : List EngineOp) (hok : ops.all EngineOp.frequencyOk = true)
    (s : State) (op : EngineOp) (hs : 1 ≤ s.g_frequency_kHz)
    (hop : op.frequencyOk = true) :
    (∃ s1 s2, setup hw s0 = some s1 ∧ loop s1 bytes = some s2 ∧ DerivedConsistent s2) ∧
    (∃ s1 s3, setup hw s0 = some s1 ∧ runEngine s1 ops = some s3 ∧ DerivedConsistent s3) ∧
    (∃ s4, op.run s = some s4 ∧ (s4 = s ∨ DerivedConsistent s4)) := by
  obtain ⟨s1, h1, hset, hr⟩ := setup_invariant hw s0
  obtain ⟨s2, h2, hset2, -⟩ := loop_invariant bytes s1 ⟨hset, hr⟩
  obtain ⟨s3, h3, hset3⟩ := runEngine_settled ops s1 hset hok
  obtain ⟨s4, h4, h5, -⟩ := EngineOp.run_settled s op hs hop
  refine ⟨⟨s1, s2, h1, h2, Settled.consistent s2 hset2⟩,
    ⟨s1, s3, h1, h3, Settled.consistent s3 hset3⟩, s4, h4, ?_⟩
  rcases h5 with e | h
  · exact Or.inl e
  · exact Or.inr (Settled.consistent s4 h)

/-- C18, on the ATmega328P: the bytes `'3'`, `'.'`, `' '`; the calls
`setFrequencyDutyCycle(3, 33)`, `increaseDutyCycle()`, `decreaseDutyCycle()`; and one
`increaseDutyCycle()` in the 10 kHz, 50 % state. -/
theorem C18_derived_state_consistent_witness :
    (∃ s1 s2, setup atmega328p state_at_startup = some s1 ∧
      loop s1 [(Char.toNat '3' : Int), (Char.toNat '.' : Int), (Char.toNat ' ' : Int)]
        = some s2 ∧ DerivedConsistent s2) ∧
    (∃ s1 s3, setup atmega328p state_at_startup = some s1 ∧
      runEngine s1 [EngineOp.set 3 33, EngineOp.increase, EngineOp.decrease] = some s3 ∧
      DerivedConsistent s3) ∧
    (∃ s4, EngineOp.increase.run state_10kHz_50pct = some s4 ∧
      (s4 = state_10kHz_50pct ∨ DerivedConsistent s4)) :=
  C18_derived_state_consistent atmega328p state_at_startup
    [(Char.toNat '3' : Int), (Char.toNat '.' : Int), (Char.toNat ' ' : Int)]
    [EngineOp.set 3 33, EngineOp.increase, EngineOp.decrease] (by decide)
    state_10kHz_50pct EngineOp.increase (by decide) (by decide)

/-- C19: the operating range is an invariant of the command loop. After `setup` (any device
bit numbers, any prior state) and any finite sequence of input bytes the run returns, and in
the state reached `g_frequency_kHz` is one of 10, 20, ..., 100, `g_duty_cycle` lies in
`[0, 48]` and `g_period_ticks` lies in `[80, 800]`; so the divisor of `calculatePeriod` is
not zero there, and the loop body returns for whatever byte comes next. -/
theorem C19_operating_range_invariant (hw : Timer1Bits) (s0 : State) (bytes : List Int) :
    ∃ s1 s2, setup hw s0 = some s1 ∧ loop s1 bytes = some s2 ∧
      s2.g_frequency_kHz ∈ ([10, 20, 30, 40, 50, 60, 70, 80, 90, 100] : List Int) ∧
      0 ≤ s2.g_duty_cycle ∧ s2.g_duty_cycle ≤ 48 ∧
      s2.g_frequency_kHz ≠ 0 ∧ (calculatePeriod s2.g_frequency_kHz).isSome = true ∧
      80 ≤ s2.g_period_ticks ∧ s2.g_period_ticks ≤ 800 ∧
      ∀ ch, ∃ s3, loop_step s2 ch = some s3 := by
  obtain ⟨s1, h1, hset, hr⟩ := setup_invariant hw s0
  obtain ⟨s2, h2, hset2, hr2⟩ := loop_invariant bytes s1 ⟨hset, hr⟩
  obtain ⟨r1, r2, r3, r4, r5⟩ := hr2
  have hne : s2.g_frequency_kHz ≠ 0 := by
    have := hset2.1
    omega
  refine ⟨s1, s2, h1, h2, r1, r2, r3, hne, ?_, r4, r5, ?_⟩
  · rw [calculatePeriod, if_neg hne]; rfl
  · intro ch
    obtain ⟨s3, h3, -⟩ := loop_step_invariant s2 ch ⟨hset2, r1, r2, r3, r4, r5⟩
    exact ⟨s3, h3⟩

/-- C20: the programmed period is exact only for the divisors of 500. For every frequency
of at least 1 kHz the length of the up-down cycle, `2 * g_period_ticks` ticks, equals the
ideal `16000 / frequency_kHz` (a rational number of ticks) exactly if the frequency divides
500, and is strictly shorter otherwise; above 500 kHz `g_period_ticks` is 0; and 8 kHz and
40 kHz, which divide 1000 but not 500, give 1984 and 384 ticks against 2000 and 400. -/
theorem C20_period_exact_iff_divides_500 (s : State) (f d : Int) (hf : 1 ≤ f) :
    (∃ s1, setFrequencyDutyCycle s f d = some s1 ∧
      (2 * (s1.g_period_ticks : ℚ) = 16000 / (f : ℚ) ↔ f ∣ 500) ∧
      (¬ f ∣ 500 → 2 * (s1.g_period_ticks : ℚ) < 16000 / (f : ℚ)) ∧
      (500 < f → s1.g_period_ticks = 0)) ∧
    (∃ s8, setFrequencyDutyCycle s 8 d = some s8 ∧ 2 * s8.g_period_ticks = 1984) ∧
    (∃ s40, setFrequencyDutyCycle s 40 d = some s40 ∧ 2 * s40.g_period_ticks = 384) ∧
    ((8 : Int) ∣ 1000 ∧ ¬ (8 : Int) ∣ 500 ∧ (40 : Int) ∣ 1000 ∧ ¬ (40 : Int) ∣ 500) := by
  have ticks : ∀ g : Int, 1 ≤ g → ∃ s1, setFrequencyDutyCycle s g d = some s1 ∧
      (s1.g_period_ticks : Int) = 16 * (1000 / g / 2) := by
    intro g hg
    obtain ⟨s1, hs, -, -, hus, hpt, -⟩ := setFrequencyDutyCycle_fields s g d (by omega)
    obtain ⟨-, -, -, e3, -⟩ := period_bounds g hg
    rw [hus] at hpt
    exact ⟨s1, hs, by rw [hpt, e3]⟩
  refine ⟨?_, ?_, ?_, by decide⟩
  · obtain ⟨s1, hs, ht⟩ := ticks f hf
    obtain ⟨A, B, C⟩ := half_period_bounds f hf
    have hfq : (0 : ℚ) < (f : ℚ) := by exact_mod_cast (by omega : (0 : Int) < f)
    have hcast : (s1.g_period_ticks : ℚ) = 16 * ((1000 / f / 2 : Int) : ℚ) := by
      exact_mod_cast ht
    refine ⟨s1, hs, ?_, ?_, ?_⟩
    · rw [eq_div_iff (ne_of_gt hfq), hcast, ← C]
      constructor
      · intro h
        have h' : 2 * (16 * (1000 / f / 2)) * f = 16000 := by exact_mod_cast h
        linarith
      · intro h
        have h' : 2 * (16 * (1000 / f / 2)) * f = 16000 := by linarith
        exact_mod_cast h'
    · intro hnd
      have hne : f * (1000 / f / 2) ≠ 500 := fun e => hnd (C.mp e)
      have hlt : f * (1000 / f / 2) < 500 := lt_of_le_of_ne A hne
      rw [lt_div_iff₀ hfq, hcast]
      have h' : 2 * (16 * (1000 / f / 2)) * f < 16000 := by linarith
      exact_mod_cast h'
    · intro h500
      have hz : 1000 / f / 2 = 0 := by
        have h0 : 0 ≤ 1000 / f / 2 :=
          Int.ediv_nonneg (Int.ediv_nonneg (by norm_num) (by omega)) (by norm_num)
        by_contra hne
        have h1 : 1 ≤ 1000 / f / 2 := by omega
        have : f * 1 ≤ f * (1000 / f / 2) := mul_le_mul_of_nonneg_left h1 (by omega)
        linarith
      rw [hz] at ht
      omega
  · obtain ⟨s8, hs, ht⟩ := ticks 8 (by decide)
    refine ⟨s8, hs, ?_⟩
    have : (16 : Int) * (1000 / 8 / 2) = 992 := by decide
    omega
  · obtain ⟨s40, hs, ht⟩ := ticks 40 (by decide)
    refine ⟨s40, hs, ?_⟩
    have : (16 : Int) * (1000 / 40 / 2) = 192 := by decide
    omega

/-- C20, at 8 kHz, which divides 1000 but not 500, and at 600 kHz. -/
theorem C20_period_exact_iff_divides_500_witness :
    (∃ s1, setFrequencyDutyCycle State.zero 8 20 = some s1 ∧
      (2 * (s1.g_period_ticks : ℚ) = 16000 / ((8 : Int) : ℚ) ↔ (8 : Int) ∣ 500) ∧
      2 * (s1.g_period_ticks : ℚ) < 16000 / ((8 : Int) : ℚ)) ∧
    (∃ s2, setFrequencyDutyCycle State.zero 600 20 = some s2 ∧ s2.g_period_ticks = 0) := by
  obtain ⟨⟨s1, hs1, hiff, hlt, -⟩, -⟩ :=
    C20_period_exact_iff_divides_500 State.zero 8 20 (by decide)
  obtain ⟨⟨s2, hs2, -, -, hz⟩, -⟩ :=
    C20_period_exact_iff_divides_500 State.zero 600 20 (by decide)
  exact ⟨⟨s1, hs1, hiff, hlt (by decide)⟩, ⟨s2, hs2, hz (by decide)⟩⟩

end PushPull
